import Mathlib

/-!
Verification of the tradewar-sim economic core against its specification.

The Python sources are shallowly embedded:
* Python `float` values are modelled as real numbers with exact arithmetic.
* Python `dict`s (insertion ordered, unique keys) are modelled as association
  lists; `dict.get(k, d)`, `dict.pop(k)` and item assignment become `lookupA`,
  `eraseA` and `updateA` below.
* Python object identity (`id(obj)`), used by `SimulationState` to key the
  policy/event start-step bookkeeping tables, is modelled by a `pid : Nat`
  field carried by every `TariffPolicy` / `EventConfig` value.
* The process-wide random number generator is modelled by passing each drawn
  value as an explicit parameter, with its documented range as a hypothesis.
* Fallible code (code that can raise) is modelled with `Except String`.
-/

namespace TradewarSim

/-- `dict.get k` / `dict[k]` on an insertion-ordered association list. -/
def lookupA {β : Type} (k : Nat) : List (Nat × β) → Option β
  | [] => none
  | (k', v) :: rest => if k' = k then some v else lookupA k rest

/-- `dict.pop(k, None)`: drop every binding of `k` (keys are unique in a real
dict, so at most one binding is dropped). -/
def eraseA {β : Type} (k : Nat) (l : List (Nat × β)) : List (Nat × β) :=
  l.filter (fun kv => kv.1 ≠ k)

/-- String-keyed `dict.get`. -/
def lookupS {β : Type} (k : String) : List (String × β) → Option β
  | [] => none
  | (k', v) :: rest => if k' = k then some v else lookupS k rest

/-- `d[k] = f d[k]` on a string-keyed dict: rewrite the (unique) binding of
`k` in place, keeping insertion order; missing keys are left alone (every
caller below only updates keys that `__post_init__` has installed). -/
def updateS {β : Type} (k : String) (f : β → β) : List (String × β) → List (String × β)
  | [] => []
  | (k', v) :: rest => if k' = k then (k', f v) :: rest else (k', v) :: updateS k f rest

theorem lookupA_eraseA_self {β : Type} (k : Nat) (l : List (Nat × β)) :
    lookupA k (eraseA k l) = none := by
  induction l with
  | nil => rfl
  | cons kv rest ih =>
    by_cases h : kv.1 = k
    · simpa [eraseA, h] using ih
    · simpa [eraseA, lookupA, h] using ih

theorem lookupA_eraseA_ne {β : Type} {k k' : Nat} (h : k' ≠ k) (l : List (Nat × β)) :
    lookupA k (eraseA k' l) = lookupA k l := by
  induction l with
  | nil => rfl
  | cons kv rest ih =>
    by_cases hk : kv.1 = k'
    · have hne : kv.1 ≠ k := by rw [hk]; exact h
      have h1 : eraseA k' (kv :: rest) = eraseA k' rest := by
        simp [eraseA, hk]
      rw [h1, ih]
      simp [lookupA, hne]
    · have h1 : eraseA k' (kv :: rest) = kv :: eraseA k' rest := by
        simp [eraseA, hk]
      rw [h1]
      by_cases hk2 : kv.1 = k
      · simp [lookupA, hk2]
      · simp [lookupA, hk2, ih]

theorem lookupA_eraseA_none {β : Type} {k k' : Nat} {l : List (Nat × β)}
    (h : lookupA k l = none) : lookupA k (eraseA k' l) = none := by
  by_cases hk : k' = k
  · subst hk; exact lookupA_eraseA_self k' l
  · rw [lookupA_eraseA_ne (Ne.symm (Ne.symm hk)) l]
    exact h

/-- `models.py::Country` (only the fields the embedded functions read).
Equality and hashing in the source are by `name` alone; the embedded
functions below compare countries by `name`, as the source does. -/
structure Country where
  name : String
  gdp : ℝ
  unemployment_rate : ℝ
  currency_value : ℝ

/-- `models.py::TradeFlow`; `sector_volumes` / `sector_values` are dicts
sector → float. -/
structure TradeFlow where
  exporter : Country
  importer : Country
  year : ℤ
  quarter : ℤ
  sector_volumes : List (String × ℝ)
  sector_values : List (String × ℝ)

/-- `TradeFlow.total_value`: sum of the sector values. -/
def TradeFlow.total_value (f : TradeFlow) : ℝ :=
  (f.sector_values.map (fun kv => kv.2)).sum

/-- `models.py::TariffPolicy` with `pid` standing for the CPython object
identity `id(policy)`. -/
structure TariffPolicy where
  pid : Nat
  source_country : Country
  target_country : Country
  sector_rates : List (String × ℝ)
  duration_quarters : ℤ

/-- `models.py::EventConfig` as declared in `models.py` (the dataclass has no
`trigger_time` / `one_time` field; see the C7 development below). `pid`
stands for `id(event)`. -/
structure EventConfig where
  pid : Nat
  name : String
  probability : ℝ
  affected_countries : List String
  gdp_impact : List (String × ℝ)
  duration_quarters : ℤ

/-- `models.py::EconomicIndicator` (the `country` back-reference is kept as
the bare name). -/
structure EconomicIndicator where
  country_name : String
  year : ℤ
  quarter : ℤ
  gdp_growth : ℝ
  inflation : ℝ
  unemployment : ℝ
  trade_balance : List (String × ℝ)
  consumer_confidence : ℝ
  business_confidence : ℝ
  currency_value : ℝ

/-- `state.py::SimulationState`. `policy_start_steps` / `event_start_steps`
are the identity-keyed bookkeeping dicts `Dict[int, int]`. -/
structure SimulationState where
  countries : List Country
  year : ℤ
  quarter : ℤ
  trade_flows : List TradeFlow
  economic_indicators : List (String × List EconomicIndicator)
  active_tariff_policies : List TariffPolicy
  active_events : List EventConfig
  policy_start_steps : List (Nat × ℤ)
  event_start_steps : List (Nat × ℤ)
  gdp_snapshots : List (String × List (ℤ × ℝ))

/-- `state.py::SimulationState.get_trade_balance`. -/
noncomputable def SimulationState.get_trade_balance
    (s : SimulationState) (country1 country2 : Country) : ℝ :=
  let exports :=
    ((s.trade_flows.filter (fun flow =>
        flow.exporter.name = country1.name ∧ flow.importer.name = country2.name)).map
      (fun flow => flow.total_value)).sum
  let imports :=
    ((s.trade_flows.filter (fun flow =>
        flow.exporter.name = country2.name ∧ flow.importer.name = country1.name)).map
      (fun flow => flow.total_value)).sum
  exports - imports

/-- `tariff.py::calculate_tariff_impact` line 45: the prior trade flows from
the targeted country to the imposing country. -/
noncomputable def tariffPriorFlows
    (s : SimulationState) (imposing_country targeted_country : Country) : List TradeFlow :=
  s.trade_flows.filter (fun flow =>
    flow.exporter.name = targeted_country.name ∧ flow.importer.name = imposing_country.name)

/-- Python `max(trade_flows, key=lambda flow: (flow.year, flow.quarter))`:
the first element whose `(year, quarter)` key is maximal. -/
def latestFlow (head : TradeFlow) (rest : List TradeFlow) : TradeFlow :=
  rest.foldl (fun acc f =>
    if acc.year < f.year ∨ (acc.year = f.year ∧ acc.quarter < f.quarter) then f else acc) head

theorem latestFlow_mem (head : TradeFlow) (rest : List TradeFlow) :
    latestFlow head rest ∈ head :: rest := by
  unfold latestFlow
  induction rest generalizing head with
  | nil => simp
  | cons f fs ih =>
    simp only [List.foldl_cons]
    by_cases h : head.year < f.year ∨ (head.year = f.year ∧ head.quarter < f.quarter)
    · simp only [if_pos h]
      have := ih f
      rcases List.mem_cons.mp this with h1 | h1
      · exact List.mem_cons.mpr (Or.inr (List.mem_cons.mpr (Or.inl h1)))
      · exact List.mem_cons.mpr (Or.inr (List.mem_cons.mpr (Or.inr h1)))
    · simp only [if_neg h]
      have := ih head
      rcases List.mem_cons.mp this with h1 | h1
      · exact List.mem_cons.mpr (Or.inl h1)
      · exact List.mem_cons.mpr (Or.inr (List.mem_cons.mpr (Or.inr h1)))

/-- `state.py::TariffImpact`. -/
structure TariffImpact where
  policy : TariffPolicy
  exporter_gdp_impact : ℝ
  importer_gdp_impact : ℝ
  trade_volume_change : List (String × ℝ)
  price_effects : List (String × ℝ)

/-- `tariff.py::calculate_tariff_impact` lines 59-68 (no prior trade data):
`trade_volume_change[sector] = -base_volume * rate * 2.0` where
`base_volume = estimated_trade_volume / len(policy.sector_rates)`. -/
noncomputable def tariffNoFlowChanges
    (policy : TariffPolicy) (imposing_country targeted_country : Country) :
    List (String × ℝ) :=
  let estimated_trade_volume := Real.sqrt (targeted_country.gdp * imposing_country.gdp) * 0.001
  policy.sector_rates.map (fun sr =>
    (sr.1, -(estimated_trade_volume / (policy.sector_rates.length : ℝ)) * sr.2 * 2.0))

/-- `tariff.py::calculate_tariff_impact` lines 77-93 (prior flow exists):
`volume_change = sector_volume * price_elasticity * price_increase`. -/
noncomputable def tariffFlowChanges
    (policy : TariffPolicy) (latest_flow : TradeFlow) (elasticity_multiplier : ℝ) :
    List (String × ℝ) :=
  policy.sector_rates.map (fun sr =>
    (sr.1,
      ((lookupS sr.1 latest_flow.sector_volumes).getD
        (latest_flow.total_value / (policy.sector_rates.length : ℝ))) *
      (-2.0 * elasticity_multiplier) * (sr.2 * 0.7)))

/-- `tariff.py`: in both branches `price_effects[sector] = rate * 0.7`. -/
noncomputable def tariffPriceEffects (policy : TariffPolicy) : List (String × ℝ) :=
  policy.sector_rates.map (fun sr => (sr.1, sr.2 * 0.7))

/-- `tariff.py::calculate_tariff_impact`. -/
noncomputable def calculate_tariff_impact
    (s : SimulationState) (policy : TariffPolicy)
    (imposing_country targeted_country : Country) (elasticity_multiplier : ℝ) :
    TariffImpact :=
  let trade_volume_change :=
    match tariffPriorFlows s imposing_country targeted_country with
    | [] => tariffNoFlowChanges policy imposing_country targeted_country
    | head :: rest => tariffFlowChanges policy (latestFlow head rest) elasticity_multiplier
  let price_effects := tariffPriceEffects policy
  let total_export_loss := (trade_volume_change.map (fun kv => kv.2)).sum
  let exporter_gdp_impact := total_export_loss * 0.8
  let tariff_revenue := (trade_volume_change.map (fun kv =>
    -kv.2 * ((lookupS kv.1 policy.sector_rates).getD 0))).sum
  let consumer_surplus_loss := tariff_revenue * 0.3
  let importer_gdp_impact := tariff_revenue - consumer_surplus_loss
  { policy := policy
    exporter_gdp_impact := exporter_gdp_impact
    importer_gdp_impact := importer_gdp_impact
    trade_volume_change := trade_volume_change
    price_effects := price_effects }

theorem lookupS_mem {β : Type} {k : String} {v : β} :
    ∀ {l : List (String × β)}, lookupS k l = some v → (k, v) ∈ l := by
  intro l
  induction l with
  | nil => intro h; cases h
  | cons kv rest ih =>
    intro h
    by_cases hk : kv.1 = k
    · simp only [lookupS, if_pos hk] at h
      cases h
      have : kv = (k, kv.2) := by
        cases kv
        simp_all
      rw [← this]
      exact List.mem_cons_self _ _
    · simp only [lookupS, if_neg hk] at h
      exact List.mem_cons.mpr (Or.inr (ih h))

/-- C2: For every simulation state and every pair of countries A and B,
`state.get_trade_balance(A, B)` equals the exact negation of
`state.get_trade_balance(B, A)`. -/
theorem get_trade_balance_antisymm (s : SimulationState) (a b : Country) :
    s.get_trade_balance a b = -(s.get_trade_balance b a) := by
  unfold SimulationState.get_trade_balance
  ring

theorem calculate_tariff_impact_changes_eq
    (s : SimulationState) (policy : TariffPolicy) (ic tc : Country) (m : ℝ) :
    (calculate_tariff_impact s policy ic tc m).trade_volume_change =
      match tariffPriorFlows s ic tc with
      | [] => tariffNoFlowChanges policy ic tc
      | head :: rest => tariffFlowChanges policy (latestFlow head rest) m := rfl

/-- C1: for non-negative trade data and GDPs, all-nonnegative sector rates
give only non-positive `trade_volume_change` values, and all-negative sector
rates give only non-negative values (at the default
`elasticity_multiplier = 1.0`). -/
theorem tariff_impact_volume_sign
    (s : SimulationState) (policy : TariffPolicy) (ic tc : Country)
    (hvol : ∀ f ∈ s.trade_flows, ∀ kv ∈ f.sector_volumes, (0 : ℝ) ≤ kv.2)
    (hval : ∀ f ∈ s.trade_flows, ∀ kv ∈ f.sector_values, (0 : ℝ) ≤ kv.2)
    (hgdpi : 0 ≤ ic.gdp) (hgdpt : 0 ≤ tc.gdp) :
    ((∀ kv ∈ policy.sector_rates, (0 : ℝ) ≤ kv.2) →
      ∀ kv ∈ (calculate_tariff_impact s policy ic tc 1).trade_volume_change, kv.2 ≤ 0) ∧
    ((∀ kv ∈ policy.sector_rates, kv.2 < (0 : ℝ)) →
      ∀ kv ∈ (calculate_tariff_impact s policy ic tc 1).trade_volume_change, 0 ≤ kv.2) := by
  have hbase :
      ∀ kv ∈ (calculate_tariff_impact s policy ic tc 1).trade_volume_change,
        ∃ sr ∈ policy.sector_rates, ∃ vol : ℝ, 0 ≤ vol ∧
          (kv.2 = -(vol) * sr.2 * 2.0 ∨ kv.2 = vol * (-2.0 * 1) * (sr.2 * 0.7)) := by
    rw [calculate_tariff_impact_changes_eq]
    rcases hE : tariffPriorFlows s ic tc with _ | ⟨head, rest⟩
    · intro kv hkv
      rcases List.mem_map.mp hkv with ⟨sr, hsr, hform⟩
      refine ⟨sr, hsr, Real.sqrt (tc.gdp * ic.gdp) * 0.001 / (policy.sector_rates.length : ℝ),
        ?_, Or.inl ?_⟩
      · apply div_nonneg
        · exact mul_nonneg (Real.sqrt_nonneg _) (by norm_num)
        · exact Nat.cast_nonneg _
      · rw [← hform]
    · intro kv hkv
      rcases List.mem_map.mp hkv with ⟨sr, hsr, hform⟩
      have hlatest_in : latestFlow head rest ∈ s.trade_flows := by
        have h1 : latestFlow head rest ∈ head :: rest := latestFlow_mem head rest
        rw [← hE] at h1
        exact List.mem_of_mem_filter h1
      set lf := latestFlow head rest with hlf
      refine ⟨sr, hsr,
        (lookupS sr.1 lf.sector_volumes).getD (lf.total_value / (policy.sector_rates.length : ℝ)),
        ?_, Or.inr ?_⟩
      · rcases hL : lookupS sr.1 lf.sector_volumes with _ | w
        · simp only [hL, Option.getD_none]
          apply div_nonneg
          · apply List.sum_nonneg
            intro x hx
            rcases List.mem_map.mp hx with ⟨kv2, hkv2, hkx⟩
            rw [← hkx]
            exact hval lf hlatest_in kv2 hkv2
          · exact Nat.cast_nonneg _
        · simp only [hL, Option.getD_some]
          exact hvol lf hlatest_in (sr.1, w) (lookupS_mem hL)
      · rw [← hform]
  constructor
  · intro hrates kv hkv
    rcases hbase kv hkv with ⟨sr, hsr, vol, hvolpos, hform | hform⟩
    · have hr := hrates sr hsr
      rw [hform]; nlinarith
    · have hr := hrates sr hsr
      rw [hform]; nlinarith
  · intro hrates kv hkv
    rcases hbase kv hkv with ⟨sr, hsr, vol, hvolpos, hform | hform⟩
    · have hr := hrates sr hsr
      rw [hform]; nlinarith
    · have hr := hrates sr hsr
      rw [hform]; nlinarith

/-- Concrete fixture country (gdp 1). -/
noncomputable def cA : Country := ⟨"A", 1, 0, 1⟩

/-- Concrete fixture country (gdp 1). -/
noncomputable def cB : Country := ⟨"B", 1, 0, 1⟩

/-- Concrete fixture tariff policy `A → B`, one sector at rate 0.5. -/
noncomputable def policyAB : TariffPolicy := ⟨0, cA, cB, [("technology", 0.5)], 4⟩

/-- Concrete fixture state with no trade flows. -/
noncomputable def stateNoFlow : SimulationState :=
  ⟨[cA, cB], 0, 0, [], [("A", []), ("B", [])], [], [], [], [], [("A", []), ("B", [])]⟩

theorem tariff_impact_volume_sign_witness :
    (-(Real.sqrt ((1 : ℝ) * 1) * 0.001 / ((1 : ℕ) : ℝ)) * 0.5 * 2.0 : ℝ) ≤ 0 := by
  have h := (tariff_impact_volume_sign stateNoFlow policyAB cA cB
    (by intro f hf; simp [stateNoFlow] at hf)
    (by intro f hf; simp [stateNoFlow] at hf)
    (by norm_num [cA]) (by norm_num [cB])).1
  have hrates : ∀ kv ∈ policyAB.sector_rates, (0 : ℝ) ≤ kv.2 := by
    intro kv hkv
    simp only [policyAB] at hkv
    rcases List.mem_singleton.mp hkv with rfl
    norm_num
  have hmem :
      ("technology", -(Real.sqrt (cB.gdp * cA.gdp) * 0.001 /
          ((policyAB.sector_rates.length : ℕ) : ℝ)) * 0.5 * 2.0) ∈
        (calculate_tariff_impact stateNoFlow policyAB cA cB 1).trade_volume_change := by
    rw [calculate_tariff_impact_changes_eq]
    have hE : tariffPriorFlows stateNoFlow cA cB = [] := rfl
    rw [hE]
    simp [tariffNoFlowChanges, policyAB]
  have := h hrates _ hmem
  simpa [cA, cB, policyAB] using this

theorem lookupS_map_of_mem {β γ : Type} {l : List (String × β)}
    (hnodup : (l.map Prod.fst).Nodup) {k : String} {v : β}
    (hmem : (k, v) ∈ l) (g : String × β → γ) :
    lookupS k (l.map (fun sr => (sr.1, g sr))) = some (g (k, v)) := by
  induction l with
  | nil => cases hmem
  | cons kv rest ih =>
    rcases List.mem_cons.mp hmem with heq | htail
    · rw [← heq]
      simp [lookupS]
    · have hn : (kv.1 :: rest.map Prod.fst).Nodup := by simpa using hnodup
      have hk : kv.1 ≠ k := by
        intro hcontra
        have hkeys : k ∈ rest.map Prod.fst :=
          List.mem_map.mpr ⟨(k, v), htail, rfl⟩
        have h1 := (List.nodup_cons.mp hn).1
        rw [hcontra] at h1
        exact h1 hkeys
      simp only [List.map_cons, lookupS, if_neg hk]
      exact ih (List.nodup_cons.mp hn).2 htail

/-- C5 (amended): per sector, `price_effects[sector] = rate * 0.7` in both
branches; in the prior-flow branch
`trade_volume_change[sector] = sector_volume * (-2.0 * elasticity_multiplier) * (rate * 0.7)`;
but in the no-prior-flow branch the source computes
`trade_volume_change[sector] = -base_volume * rate * 2.0`
(no 0.7 pass-through factor and no elasticity multiplier), with
`base_volume` the estimated volume split evenly across sectors. -/
theorem tariff_impact_per_sector
    (s : SimulationState) (policy : TariffPolicy) (ic tc : Country) (m : ℝ)
    (hnodup : (policy.sector_rates.map Prod.fst).Nodup)
    (sec : String) (r : ℝ) (hmem : (sec, r) ∈ policy.sector_rates) :
    lookupS sec (calculate_tariff_impact s policy ic tc m).price_effects = some (r * 0.7) ∧
    (tariffPriorFlows s ic tc = [] →
      lookupS sec (calculate_tariff_impact s policy ic tc m).trade_volume_change =
        some (-(Real.sqrt (tc.gdp * ic.gdp) * 0.001 /
          (policy.sector_rates.length : ℝ)) * r * 2.0)) ∧
    (∀ head rest, tariffPriorFlows s ic tc = head :: rest →
      lookupS sec (calculate_tariff_impact s policy ic tc m).trade_volume_change =
        some (((lookupS sec (latestFlow head rest).sector_volumes).getD
            ((latestFlow head rest).total_value / (policy.sector_rates.length : ℝ))) *
          (-2.0 * m) * (r * 0.7))) := by
  refine ⟨?_, ?_, ?_⟩
  · have : (calculate_tariff_impact s policy ic tc m).price_effects =
        tariffPriceEffects policy := rfl
    rw [this, tariffPriceEffects]
    exact lookupS_map_of_mem hnodup hmem (fun sr => sr.2 * 0.7)
  · intro hE
    rw [calculate_tariff_impact_changes_eq, hE]
    rw [tariffNoFlowChanges]
    exact lookupS_map_of_mem hnodup hmem
      (fun sr => -(Real.sqrt (tc.gdp * ic.gdp) * 0.001 /
        (policy.sector_rates.length : ℝ)) * sr.2 * 2.0)
  · intro head rest hE
    rw [calculate_tariff_impact_changes_eq, hE]
    unfold tariffFlowChanges
    exact lookupS_map_of_mem hnodup hmem
      (fun sr => ((lookupS sr.1 (latestFlow head rest).sector_volumes).getD
          ((latestFlow head rest).total_value / (policy.sector_rates.length : ℝ))) *
        (-2.0 * m) * (sr.2 * 0.7))

theorem tariff_impact_per_sector_witness :
    lookupS "technology"
        (calculate_tariff_impact stateNoFlow policyAB cA cB 1).price_effects =
      some ((0.5 : ℝ) * 0.7) :=
  (tariff_impact_per_sector stateNoFlow policyAB cA cB 1
    (by simp [policyAB]) "technology" 0.5 (by simp [policyAB])).1

/-- The per-sector volume-change formula asserted by the specification for the
no-prior-flow branch (for comparison with the source's `tariffNoFlowChanges`):
`sector_volume * (-2.0 * elasticity_multiplier) * (rate * 0.7)` where
`sector_volume` is `sqrt(gdp_imposing * gdp_target) * 0.001` divided evenly
across the policy's sectors. -/
noncomputable def specNoFlowChange
    (imposing targeted : Country) (nSectors : ℕ) (rate m : ℝ) : ℝ :=
  (Real.sqrt (imposing.gdp * targeted.gdp) * 0.001 / (nSectors : ℝ)) * (-2.0 * m) * (rate * 0.7)

/-- C5 counterexample: with no prior flows, gdps 1 and 1, a single sector at
rate 0.5, the source returns `-0.001` while the claimed formula gives
`-0.0007`. -/
theorem tariff_noflow_change_ne_spec :
    lookupS "technology"
        (calculate_tariff_impact stateNoFlow policyAB cA cB 1).trade_volume_change ≠
      some (specNoFlowChange cA cB policyAB.sector_rates.length 0.5 1) := by
  have hE : tariffPriorFlows stateNoFlow cA cB = [] := rfl
  rw [calculate_tariff_impact_changes_eq, hE]
  simp only [tariffNoFlowChanges, policyAB, specNoFlowChange, cA, cB,
    List.map_cons, List.map_nil, lookupS, if_pos rfl, List.length_cons, List.length_nil]
  intro hcontra
  have h2 := Option.some.inj (by simpa using hcontra)
  norm_num at h2

/-- Python dict assignment `d[k] = v` for int-keyed dicts: replace in place,
else append. -/
def insertA {β : Type} (k : Nat) (v : β) : List (Nat × β) → List (Nat × β)
  | [] => [(k, v)]
  | (k', v') :: rest => if k' = k then (k, v) :: rest else (k', v') :: insertA k v rest

/-- Python dict assignment `d[k] = v` for string-keyed dicts. -/
def insertS {β : Type} (k : String) (v : β) : List (String × β) → List (String × β)
  | [] => [(k, v)]
  | (k', v') :: rest => if k' = k then (k, v) :: rest else (k', v') :: insertS k v rest

/-- One pass of `state.py::_remove_expired_items` over an identity-keyed
collection: keep an item iff `current_step - started < duration` where
`started = table.get(id(item), current_step)`, and pop the table entry of
every removed item. -/
def expiryPass {α : Type} (cur : ℤ) (pid : α → Nat) (dur : α → ℤ) :
    List α → List (Nat × ℤ) → List α × List (Nat × ℤ)
  | [], table => ([], table)
  | x :: rest, table =>
    let started := (lookupA (pid x) table).getD cur
    if cur - started < dur x then
      let result := expiryPass cur pid dur rest table
      (x :: result.1, result.2)
    else
      expiryPass cur pid dur rest (eraseA (pid x) table)

theorem expiryPass_subset {α : Type} (cur : ℤ) (pid : α → Nat) (dur : α → ℤ) :
    ∀ (l : List α) (t : List (Nat × ℤ)) (x : α),
      x ∈ (expiryPass cur pid dur l t).1 → x ∈ l := by
  intro l
  induction l with
  | nil => intro t x hx; simpa [expiryPass] using hx
  | cons y rest ih =>
    intro t x hx
    rw [expiryPass] at hx
    by_cases hc : cur - ((lookupA (pid y) t).getD cur) < dur y
    · rw [if_pos hc] at hx
      rcases List.mem_cons.mp hx with h1 | h1
      · exact List.mem_cons.mpr (Or.inl h1)
      · exact List.mem_cons.mpr (Or.inr (ih _ x h1))
    · rw [if_neg hc] at hx
      exact List.mem_cons.mpr (Or.inr (ih _ x hx))

theorem expiryPass_table_none_mono {α : Type} (cur : ℤ) (pid : α → Nat) (dur : α → ℤ) :
    ∀ (l : List α) (t : List (Nat × ℤ)) (k : Nat),
      lookupA k t = none → lookupA k (expiryPass cur pid dur l t).2 = none := by
  intro l
  induction l with
  | nil => intro t k h; simpa [expiryPass] using h
  | cons y rest ih =>
    intro t k h
    rw [expiryPass]
    by_cases hc : cur - ((lookupA (pid y) t).getD cur) < dur y
    · rw [if_pos hc]
      exact ih t k h
    · rw [if_neg hc]
      exact ih _ k (lookupA_eraseA_none h)

theorem expiryPass_mem {α : Type} (cur : ℤ) (pid : α → Nat) (dur : α → ℤ)
    (x : α) (st : ℤ) :
    ∀ (l : List α) (t : List (Nat × ℤ)),
      (l.map pid).Nodup → lookupA (pid x) t = some st →
      (x ∈ (expiryPass cur pid dur l t).1 ↔ (x ∈ l ∧ cur - st < dur x)) := by
  intro l
  induction l with
  | nil => intro t _ _; simp [expiryPass]
  | cons y rest ih =>
    intro t hnodup hst
    have hn : pid y ∉ rest.map pid ∧ (rest.map pid).Nodup := by
      rw [List.map_cons, List.nodup_cons] at hnodup
      exact hnodup
    rw [expiryPass]
    by_cases hxy : x = y
    · subst hxy
      rw [hst]
      simp only [Option.getD_some]
      by_cases hc : cur - st < dur x
      · rw [if_pos hc]
        simp [hc]
      · rw [if_neg hc]
        constructor
        · intro hmem
          have hin : x ∈ rest := expiryPass_subset cur pid dur rest _ x hmem
          exact absurd (List.mem_map.mpr ⟨x, hin, rfl⟩) hn.1
        · intro hmem
          exact absurd hmem.2 hc
    · by_cases hc : cur - ((lookupA (pid y) t).getD cur) < dur y
      · rw [if_pos hc]
        have := ih t hn.2 hst
        constructor
        · intro hmem
          rcases List.mem_cons.mp hmem with h1 | h1
          · exact absurd h1 hxy
          · have h2 := this.mp h1
            exact ⟨List.mem_cons.mpr (Or.inr h2.1), h2.2⟩
        · intro hmem
          rcases List.mem_cons.mp hmem.1 with h1 | h1
          · exact absurd h1 hxy
          · exact List.mem_cons.mpr (Or.inr (this.mpr ⟨h1, hmem.2⟩))
      · rw [if_neg hc]
        by_cases hpid : pid x = pid y
        · constructor
          · intro hmem
            have hin : x ∈ rest := expiryPass_subset cur pid dur rest _ x hmem
            have : pid x ∈ rest.map pid := List.mem_map.mpr ⟨x, hin, rfl⟩
            rw [hpid] at this
            exact absurd this hn.1
          · intro hmem
            rcases List.mem_cons.mp hmem.1 with h1 | h1
            · exact absurd h1 hxy
            · have : pid x ∈ rest.map pid := List.mem_map.mpr ⟨x, h1, rfl⟩
              rw [hpid] at this
              exact absurd this hn.1
        · have hne : pid y ≠ pid x := fun h => hpid h.symm
          have hst2 : lookupA (pid x) (eraseA (pid y) t) = some st := by
            rw [lookupA_eraseA_ne hne]
            exact hst
          have := ih _ hn.2 hst2
          constructor
          · intro hmem
            have h2 := this.mp hmem
            exact ⟨List.mem_cons.mpr (Or.inr h2.1), h2.2⟩
          · intro hmem
            rcases List.mem_cons.mp hmem.1 with h1 | h1
            · exact absurd h1 hxy
            · exact this.mpr ⟨h1, hmem.2⟩

theorem expiryPass_table_none {α : Type} (cur : ℤ) (pid : α → Nat) (dur : α → ℤ)
    (x : α) (st : ℤ) :
    ∀ (l : List α) (t : List (Nat × ℤ)),
      (l.map pid).Nodup → x ∈ l → lookupA (pid x) t = some st →
      ¬(cur - st < dur x) → lookupA (pid x) (expiryPass cur pid dur l t).2 = none := by
  intro l
  induction l with
  | nil => intro t _ hmem; cases hmem
  | cons y rest ih =>
    intro t hnodup hmem hst hfail
    have hn : pid y ∉ rest.map pid ∧ (rest.map pid).Nodup := by
      rw [List.map_cons, List.nodup_cons] at hnodup
      exact hnodup
    rw [expiryPass]
    by_cases hxy : x = y
    · subst hxy
      rw [hst]
      simp only [Option.getD_some]
      rw [if_neg hfail]
      exact expiryPass_table_none_mono cur pid dur rest _ (pid x)
        (lookupA_eraseA_self (pid x) t)
    · have hrest : x ∈ rest := by
        rcases List.mem_cons.mp hmem with h1 | h1
        · exact absurd h1 hxy
        · exact h1
      have hne : pid y ≠ pid x := by
        intro hcontra
        have : pid x ∈ rest.map pid := List.mem_map.mpr ⟨x, hrest, rfl⟩
        rw [← hcontra] at this
        exact hn.1 this
      by_cases hc : cur - ((lookupA (pid y) t).getD cur) < dur y
      · rw [if_pos hc]
        exact ih t hn.2 hrest hst hfail
      · rw [if_neg hc]
        have hst2 : lookupA (pid x) (eraseA (pid y) t) = some st := by
          rw [lookupA_eraseA_ne hne]
          exact hst
        exact ih _ hn.2 hrest hst2 hfail

theorem expiryPass_fresh_mem {α : Type} (cur : ℤ) (pid : α → Nat) (dur : α → ℤ)
    (x : α) :
    ∀ (l : List α) (t : List (Nat × ℤ)),
      (∀ z ∈ l, lookupA (pid z) t = none) →
      (x ∈ (expiryPass cur pid dur l t).1 ↔ (x ∈ l ∧ 0 < dur x)) := by
  intro l
  induction l with
  | nil => intro t _; simp [expiryPass]
  | cons y rest ih =>
    intro t hfresh
    have hy := hfresh y (List.mem_cons_self y rest)
    have hrest : ∀ z ∈ rest, lookupA (pid z) t = none :=
      fun z hz => hfresh z (List.mem_cons.mpr (Or.inr hz))
    rw [expiryPass, hy]
    simp only [Option.getD_none, sub_self]
    by_cases hc : (0 : ℤ) < dur y
    · rw [if_pos hc]
      constructor
      · intro hmem
        rcases List.mem_cons.mp hmem with h1 | h1
        · subst h1; exact ⟨List.mem_cons_self _ _, hc⟩
        · have h2 := (ih t hrest).mp h1
          exact ⟨List.mem_cons.mpr (Or.inr h2.1), h2.2⟩
      · intro hmem
        rcases List.mem_cons.mp hmem.1 with h1 | h1
        · subst h1; exact List.mem_cons_self _ _
        · exact List.mem_cons.mpr (Or.inr ((ih t hrest).mpr ⟨h1, hmem.2⟩))
    · rw [if_neg hc]
      have hrest2 : ∀ z ∈ rest, lookupA (pid z) (eraseA (pid y) t) = none :=
        fun z hz => lookupA_eraseA_none (hrest z hz)
      rw [ih _ hrest2]
      constructor
      · intro hmem
        exact ⟨List.mem_cons.mpr (Or.inr hmem.1), hmem.2⟩
      · intro hmem
        rcases List.mem_cons.mp hmem.1 with h1 | h1
        · subst h1; exact absurd hmem.2 hc
        · exact ⟨h1, hmem.2⟩

/-- `state.py::SimulationState.add_tariff_policy`. -/
def SimulationState.add_tariff_policy
    (s : SimulationState) (policy : TariffPolicy) : SimulationState :=
  { s with
    active_tariff_policies := s.active_tariff_policies ++ [policy]
    policy_start_steps := insertA policy.pid (s.year * 4 + s.quarter) s.policy_start_steps }

/-- `state.py::SimulationState.add_events`. -/
def SimulationState.add_events
    (s : SimulationState) (events : List EventConfig) : SimulationState :=
  events.foldl (fun acc event =>
    { acc with
      active_events := acc.active_events ++ [event]
      event_start_steps := insertA event.pid (acc.year * 4 + acc.quarter) acc.event_start_steps })
    s

/-- `state.py::SimulationState._remove_expired_items`. -/
def SimulationState._remove_expired_items (s : SimulationState) : SimulationState :=
  let current_step := s.year * 4 + s.quarter
  let policyPass := expiryPass current_step (fun p => p.pid) (fun p => p.duration_quarters)
    s.active_tariff_policies s.policy_start_steps
  let eventPass := expiryPass current_step (fun e => e.pid) (fun e => e.duration_quarters)
    s.active_events s.event_start_steps
  { s with
    active_tariff_policies := policyPass.1
    policy_start_steps := policyPass.2
    active_events := eventPass.1
    event_start_steps := eventPass.2 }

/-- `state.py::SimulationState._calculate_gdp_growth`. -/
noncomputable def SimulationState._calculate_gdp_growth
    (s : SimulationState) (country : Country) : ℝ :=
  let current_step := s.year * 4 + s.quarter
  let history := (lookupS country.name s.gdp_snapshots).getD []
  let previous_values := (history.filter (fun sv => sv.1 < current_step)).map (fun sv => sv.2)
  match previous_values.getLast? with
  | none => 0.02
  | some previous_gdp =>
    if previous_gdp ≤ 0 then 0.0 else (country.gdp - previous_gdp) / previous_gdp

/-- Per-policy average sector rate with the
`sum(...) / max(1, len(...))` guard used in `state.py`. -/
noncomputable def policyAvgRateGuarded (p : TariffPolicy) : ℝ :=
  (p.sector_rates.map Prod.snd).sum / ((max 1 p.sector_rates.length : ℕ) : ℝ)

/-- `state.py::SimulationState._calculate_inflation`. -/
noncomputable def SimulationState._calculate_inflation
    (s : SimulationState) (country : Country) : ℝ :=
  let base_inflation := (0.02 : ℝ)
  let incoming_policies := s.active_tariff_policies.filter
    (fun p => p.target_country.name = country.name)
  let outgoing_policies := s.active_tariff_policies.filter
    (fun p => p.source_country.name = country.name)
  let incoming_rates := incoming_policies.map policyAvgRateGuarded
  let outgoing_rates := outgoing_policies.map policyAvgRateGuarded
  let tariff_pressure :=
    (if incoming_rates.length ≠ 0 then
      (incoming_rates.sum / (incoming_rates.length : ℝ)) * 0.12 else 0) +
    (if outgoing_rates.length ≠ 0 then
      (outgoing_rates.sum / (outgoing_rates.length : ℝ)) * 0.04 else 0)
  let growth := s._calculate_gdp_growth country
  let demand_pressure := max 0 (growth - 0.005) * 0.2
  max (-0.02) (min 0.2 (base_inflation + tariff_pressure + demand_pressure))

/-- `state.py::SimulationState._calculate_unemployment` (Python's
`x or 0.05` falls back to `0.05` when `x == 0.0`). -/
noncomputable def SimulationState._calculate_unemployment
    (s : SimulationState) (country : Country) : ℝ :=
  let previous := (lookupS country.name s.economic_indicators).getD []
  let previous_unemployment :=
    match previous.getLast? with
    | some ind => ind.unemployment
    | none => if country.unemployment_rate = 0 then 0.05 else country.unemployment_rate
  let trend_growth := (0.005 : ℝ)
  let gdp_growth := s._calculate_gdp_growth country
  let updated := previous_unemployment - 0.5 * (gdp_growth - trend_growth)
  max 0.02 (min 0.2 updated)

/-- `state.py::SimulationState._calculate_trade_balances`. -/
noncomputable def SimulationState._calculate_trade_balances
    (s : SimulationState) (country : Country) : List (String × ℝ) :=
  (s.countries.filter (fun partner => partner.name ≠ country.name)).map
    (fun partner => (partner.name, s.get_trade_balance country partner))

/-- `state.py::SimulationState._calculate_consumer_confidence`. -/
noncomputable def SimulationState._calculate_consumer_confidence
    (s : SimulationState) (country : Country) : ℝ :=
  let previous := (lookupS country.name s.economic_indicators).getD []
  let prev_conf :=
    match previous.getLast? with
    | some ind => ind.consumer_confidence
    | none => (100.0 : ℝ)
  let inflation := s._calculate_inflation country
  let unemployment := s._calculate_unemployment country
  let gdp_growth := s._calculate_gdp_growth country
  let delta := (gdp_growth * 180) - (|inflation - 0.02| * 220) -
    (max 0 (unemployment - 0.05) * 140)
  max 60.0 (min 130.0 (prev_conf + delta))

/-- `state.py::SimulationState._calculate_business_confidence`. -/
noncomputable def SimulationState._calculate_business_confidence
    (s : SimulationState) (country : Country) : ℝ :=
  let previous := (lookupS country.name s.economic_indicators).getD []
  let prev_conf :=
    match previous.getLast? with
    | some ind => ind.business_confidence
    | none => (100.0 : ℝ)
  let gdp_growth := s._calculate_gdp_growth country
  let trade_signal := ((s._calculate_trade_balances country).map Prod.snd).sum
  let outgoing_policies := s.active_tariff_policies.filter
    (fun p => p.source_country.name = country.name)
  let avg_tariff :=
    if outgoing_policies.length ≠ 0 then
      ((outgoing_policies.map policyAvgRateGuarded).sum / (outgoing_policies.length : ℝ))
    else 0
  let delta := (gdp_growth * 200) + (trade_signal * 0.03) - (avg_tariff * 30)
  max 60.0 (min 130.0 (prev_conf + delta))

/-- The `EconomicIndicator` appended by `finalize_update` for one country. -/
noncomputable def SimulationState.mkIndicator
    (s : SimulationState) (country : Country) : EconomicIndicator :=
  { country_name := country.name
    year := s.year
    quarter := s.quarter
    gdp_growth := s._calculate_gdp_growth country
    inflation := s._calculate_inflation country
    unemployment := s._calculate_unemployment country
    trade_balance := s._calculate_trade_balances country
    consumer_confidence := s._calculate_consumer_confidence country
    business_confidence := s._calculate_business_confidence country
    currency_value := country.currency_value }

/-- `state.py::SimulationState.finalize_update`: set (year, quarter), append
one indicator per country (each computation sees the appends already made for
the countries before it, as in the Python loop), then remove expired items. -/
noncomputable def SimulationState.finalize_update
    (s0 : SimulationState) (year quarter : ℤ) : SimulationState :=
  let s := { s0 with year := year, quarter := quarter }
  let s1 := { s with
    economic_indicators := s.countries.foldl
      (fun (acc : List (String × List EconomicIndicator)) (c : Country) =>
        updateS c.name (fun inds =>
          inds ++ [SimulationState.mkIndicator { s with economic_indicators := acc } c]) acc)
      s.economic_indicators }
  s1._remove_expired_items

/-- `state.py::SimulationState.clone`: record the current GDP snapshot for
each country (mutating the original in place), then deep-copy. The deep copy
allocates fresh objects, so the copied policies and events carry fresh CPython
identities: `freshP` / `freshE` model the newly allocated `id` values, while
the copied `policy_start_steps` / `event_start_steps` dicts keep the original
integer keys. Returns the pair (mutated original, deep copy). -/
noncomputable def SimulationState.clone
    (s : SimulationState) (freshP freshE : Nat → Nat) :
    SimulationState × SimulationState :=
  let current_step := s.year * 4 + s.quarter
  let snapped := { s with
    gdp_snapshots := s.countries.foldl (fun acc c =>
      let history := (lookupS c.name acc).getD []
      let history' :=
        match history.getLast? with
        | none => history ++ [(current_step, c.gdp)]
        | some last =>
          if last.1 ≠ current_step then history ++ [(current_step, c.gdp)] else history
      insertS c.name history' acc) s.gdp_snapshots }
  let copy := { snapped with
    active_tariff_policies := snapped.active_tariff_policies.map
      (fun p => { p with pid := freshP p.pid })
    active_events := snapped.active_events.map
      (fun e => { e with pid := freshE e.pid }) }
  (snapped, copy)

theorem finalize_update_active_policies_eq (s : SimulationState) (y q : ℤ) :
    (s.finalize_update y q).active_tariff_policies =
      (expiryPass (y * 4 + q) (fun p => p.pid) (fun p => p.duration_quarters)
        s.active_tariff_policies s.policy_start_steps).1 := rfl

theorem finalize_update_policy_steps_eq (s : SimulationState) (y q : ℤ) :
    (s.finalize_update y q).policy_start_steps =
      (expiryPass (y * 4 + q) (fun p => p.pid) (fun p => p.duration_quarters)
        s.active_tariff_policies s.policy_start_steps).2 := rfl

theorem finalize_update_active_events_eq (s : SimulationState) (y q : ℤ) :
    (s.finalize_update y q).active_events =
      (expiryPass (y * 4 + q) (fun e => e.pid) (fun e => e.duration_quarters)
        s.active_events s.event_start_steps).1 := rfl

theorem finalize_update_event_steps_eq (s : SimulationState) (y q : ℤ) :
    (s.finalize_update y q).event_start_steps =
      (expiryPass (y * 4 + q) (fun e => e.pid) (fun e => e.duration_quarters)
        s.active_events s.event_start_steps).2 := rfl

/-- C3: after `finalize_update(year, quarter)`, a policy/event whose start
step was recorded when it was added is still active iff
`(year*4 + quarter) - start_step < duration_quarters`; when removed, its
start-step bookkeeping entry is removed as well. (Identity keys of distinct
live objects are distinct, hence the `Nodup` hypotheses.) -/
theorem finalize_update_expiry
    (s : SimulationState) (y q : ℤ)
    (hpn : (s.active_tariff_policies.map (fun p => p.pid)).Nodup)
    (hen : (s.active_events.map (fun e => e.pid)).Nodup) :
    (∀ p ∈ s.active_tariff_policies, ∀ st : ℤ,
      lookupA p.pid s.policy_start_steps = some st →
      ((p ∈ (s.finalize_update y q).active_tariff_policies ↔
        (y * 4 + q) - st < p.duration_quarters) ∧
       (¬((y * 4 + q) - st < p.duration_quarters) →
        lookupA p.pid (s.finalize_update y q).policy_start_steps = none))) ∧
    (∀ e ∈ s.active_events, ∀ st : ℤ,
      lookupA e.pid s.event_start_steps = some st →
      ((e ∈ (s.finalize_update y q).active_events ↔
        (y * 4 + q) - st < e.duration_quarters) ∧
       (¬((y * 4 + q) - st < e.duration_quarters) →
        lookupA e.pid (s.finalize_update y q).event_start_steps = none))) := by
  constructor
  · intro p hp st hst
    constructor
    · rw [finalize_update_active_policies_eq]
      rw [expiryPass_mem (y * 4 + q) (fun p => p.pid) (fun p => p.duration_quarters)
        p st s.active_tariff_policies s.policy_start_steps hpn hst]
      exact ⟨fun h => h.2, fun h => ⟨hp, h⟩⟩
    · intro hfail
      rw [finalize_update_policy_steps_eq]
      exact expiryPass_table_none (y * 4 + q) (fun p => p.pid)
        (fun p => p.duration_quarters) p st s.active_tariff_policies
        s.policy_start_steps hpn hp hst hfail
  · intro e he st hst
    constructor
    · rw [finalize_update_active_events_eq]
      rw [expiryPass_mem (y * 4 + q) (fun e => e.pid) (fun e => e.duration_quarters)
        e st s.active_events s.event_start_steps hen hst]
      exact ⟨fun h => h.2, fun h => ⟨he, h⟩⟩
    · intro hfail
      rw [finalize_update_event_steps_eq]
      exact expiryPass_table_none (y * 4 + q) (fun e => e.pid)
        (fun e => e.duration_quarters) e st s.active_events
        s.event_start_steps hen he hst hfail

/-- Concrete fixture policy for expiry: identity key 1, duration 1 quarter. -/
noncomputable def policyC3 : TariffPolicy := ⟨1, cA, cB, [("technology", 0.2)], 1⟩

/-- Concrete fixture event for expiry: identity key 2, duration 1 quarter. -/
noncomputable def eventC3 : EventConfig := ⟨2, "Temporary Shock", 0, ["A"], [("A", -0.01)], 1⟩

/-- Concrete fixture state with one active policy and one active event, both
recorded as started at step 0. -/
noncomputable def stateC3 : SimulationState :=
  ⟨[cA], 0, 0, [], [("A", [])], [policyC3], [eventC3], [(1, 0)], [(2, 0)], [("A", [])]⟩

theorem finalize_update_expiry_witness :
    policyC3 ∉ (stateC3.finalize_update 1 2).active_tariff_policies ∧
    lookupA policyC3.pid (stateC3.finalize_update 1 2).policy_start_steps = none ∧
    eventC3 ∉ (stateC3.finalize_update 1 2).active_events ∧
    lookupA eventC3.pid (stateC3.finalize_update 1 2).event_start_steps = none := by
  have h := finalize_update_expiry stateC3 1 2
    (by simp [stateC3, policyC3]) (by simp [stateC3, eventC3])
  have hp := h.1 policyC3 (by simp [stateC3]) 0 (by simp [stateC3, policyC3, lookupA])
  have he := h.2 eventC3 (by simp [stateC3]) 0 (by simp [stateC3, eventC3, lookupA])
  have hcondp : ¬(((1 : ℤ) * 4 + 2) - 0 < policyC3.duration_quarters) := by
    simp [policyC3]
  have hconde : ¬(((1 : ℤ) * 4 + 2) - 0 < eventC3.duration_quarters) := by
    simp [eventC3]
  exact ⟨fun hmem => hcondp (hp.1.mp hmem), hp.2 hcondp,
    fun hmem => hconde (he.1.mp hmem), he.2 hconde⟩

theorem clone_active_policies_eq (s : SimulationState) (fP fE : Nat → Nat) :
    (s.clone fP fE).2.active_tariff_policies =
      s.active_tariff_policies.map (fun p => { p with pid := fP p.pid }) := rfl

theorem clone_policy_steps_eq (s : SimulationState) (fP fE : Nat → Nat) :
    (s.clone fP fE).2.policy_start_steps = s.policy_start_steps := rfl

theorem clone_active_events_eq (s : SimulationState) (fP fE : Nat → Nat) :
    (s.clone fP fE).2.active_events =
      s.active_events.map (fun e => { e with pid := fE e.pid }) := rfl

theorem clone_event_steps_eq (s : SimulationState) (fP fE : Nat → Nat) :
    (s.clone fP fE).2.event_start_steps = s.event_start_steps := rfl

/-- C10: the cloned state's start-step tables are keyed by the original
objects' identities, which none of the deep-copied policies/events carry
(given that the freshly allocated identities differ from every key of the
copied tables, as CPython ids of distinct live objects do). Consequently
`_remove_expired_items` on the clone falls back to `started = current_step`
for every copied item, so it stays active iff `0 < duration_quarters`; in
particular, at a step where the original expires an item (with a positive
duration), the clone still retains the copied item. -/
theorem clone_start_steps_stale
    (s : SimulationState) (fP fE : Nat → Nat) (y q : ℤ)
    (hfp : ∀ p ∈ s.active_tariff_policies,
      lookupA (fP p.pid) s.policy_start_steps = none)
    (hfe : ∀ e ∈ s.active_events,
      lookupA (fE e.pid) s.event_start_steps = none) :
    (∀ p' ∈ (s.clone fP fE).2.active_tariff_policies,
      lookupA p'.pid (s.clone fP fE).2.policy_start_steps = none) ∧
    (∀ p' ∈ (s.clone fP fE).2.active_tariff_policies,
      (p' ∈ ((s.clone fP fE).2.finalize_update y q).active_tariff_policies ↔
        0 < p'.duration_quarters)) ∧
    (∀ e' ∈ (s.clone fP fE).2.active_events,
      lookupA e'.pid (s.clone fP fE).2.event_start_steps = none) ∧
    (∀ e' ∈ (s.clone fP fE).2.active_events,
      (e' ∈ ((s.clone fP fE).2.finalize_update y q).active_events ↔
        0 < e'.duration_quarters)) ∧
    (∀ p ∈ s.active_tariff_policies, ∀ st : ℤ,
      lookupA p.pid s.policy_start_steps = some st →
      (s.active_tariff_policies.map (fun p => p.pid)).Nodup →
      1 ≤ p.duration_quarters → p.duration_quarters ≤ (y * 4 + q) - st →
      ({ p with pid := fP p.pid } ∈
          ((s.clone fP fE).2.finalize_update y q).active_tariff_policies ∧
        p ∉ (s.finalize_update y q).active_tariff_policies)) ∧
    (∀ e ∈ s.active_events, ∀ st : ℤ,
      lookupA e.pid s.event_start_steps = some st →
      (s.active_events.map (fun e => e.pid)).Nodup →
      1 ≤ e.duration_quarters → e.duration_quarters ≤ (y * 4 + q) - st →
      ({ e with pid := fE e.pid } ∈
          ((s.clone fP fE).2.finalize_update y q).active_events ∧
        e ∉ (s.finalize_update y q).active_events)) := by
  have hstaleP : ∀ p' ∈ (s.clone fP fE).2.active_tariff_policies,
      lookupA p'.pid (s.clone fP fE).2.policy_start_steps = none := by
    intro p' hp'
    rw [clone_active_policies_eq] at hp'
    rcases List.mem_map.mp hp' with ⟨p, hp, rfl⟩
    rw [clone_policy_steps_eq]
    exact hfp p hp
  have hstaleE : ∀ e' ∈ (s.clone fP fE).2.active_events,
      lookupA e'.pid (s.clone fP fE).2.event_start_steps = none := by
    intro e' he'
    rw [clone_active_events_eq] at he'
    rcases List.mem_map.mp he' with ⟨e, he, rfl⟩
    rw [clone_event_steps_eq]
    exact hfe e he
  have hkeepP : ∀ p' ∈ (s.clone fP fE).2.active_tariff_policies,
      (p' ∈ ((s.clone fP fE).2.finalize_update y q).active_tariff_policies ↔
        0 < p'.duration_quarters) := by
    intro p' hp'
    rw [finalize_update_active_policies_eq]
    rw [expiryPass_fresh_mem (y * 4 + q) (fun p => p.pid) (fun p => p.duration_quarters)
      p' _ _ hstaleP]
    exact ⟨fun h => h.2, fun h => ⟨hp', h⟩⟩
  have hkeepE : ∀ e' ∈ (s.clone fP fE).2.active_events,
      (e' ∈ ((s.clone fP fE).2.finalize_update y q).active_events ↔
        0 < e'.duration_quarters) := by
    intro e' he'
    rw [finalize_update_active_events_eq]
    rw [expiryPass_fresh_mem (y * 4 + q) (fun e => e.pid) (fun e => e.duration_quarters)
      e' _ _ hstaleE]
    exact ⟨fun h => h.2, fun h => ⟨he', h⟩⟩
  refine ⟨hstaleP, hkeepP, hstaleE, hkeepE, ?_, ?_⟩
  · intro p hp st hst hnodup hdur hexp
    constructor
    · have hmem : { p with pid := fP p.pid } ∈ (s.clone fP fE).2.active_tariff_policies := by
        rw [clone_active_policies_eq]
        exact List.mem_map.mpr ⟨p, hp, rfl⟩
      exact (hkeepP _ hmem).mpr (by simpa using lt_of_lt_of_le Int.zero_lt_one hdur)
    · intro hmem
      rw [finalize_update_active_policies_eq] at hmem
      have := (expiryPass_mem (y * 4 + q) (fun p => p.pid) (fun p => p.duration_quarters)
        p st s.active_tariff_policies s.policy_start_steps hnodup hst).mp hmem
      omega
  · intro e he st hst hnodup hdur hexp
    constructor
    · have hmem : { e with pid := fE e.pid } ∈ (s.clone fP fE).2.active_events := by
        rw [clone_active_events_eq]
        exact List.mem_map.mpr ⟨e, he, rfl⟩
      exact (hkeepE _ hmem).mpr (by simpa using lt_of_lt_of_le Int.zero_lt_one hdur)
    · intro hmem
      rw [finalize_update_active_events_eq] at hmem
      have := (expiryPass_mem (y * 4 + q) (fun e => e.pid) (fun e => e.duration_quarters)
        e st s.active_events s.event_start_steps hnodup hst).mp hmem
      omega

theorem clone_start_steps_stale_witness :
    ({ policyC3 with pid := 101 } ∈
        (((stateC3.clone (fun n => n + 100) (fun n => n + 200)).2.finalize_update 1 2)).active_tariff_policies ∧
      policyC3 ∉ (stateC3.finalize_update 1 2).active_tariff_policies) ∧
    ({ eventC3 with pid := 202 } ∈
        (((stateC3.clone (fun n => n + 100) (fun n => n + 200)).2.finalize_update 1 2)).active_events ∧
      eventC3 ∉ (stateC3.finalize_update 1 2).active_events) := by
  have h := clone_start_steps_stale stateC3 (fun n => n + 100) (fun n => n + 200) 1 2
    (by
      intro p hp
      simp [stateC3] at hp
      subst hp
      simp [policyC3, lookupA, stateC3])
    (by
      intro e he
      simp [stateC3] at he
      subst he
      simp [eventC3, lookupA, stateC3])
  have hp := h.2.2.2.2.1 policyC3 (by simp [stateC3]) 0
    (by simp [stateC3, policyC3, lookupA]) (by simp [stateC3, policyC3])
    (by simp [policyC3]) (by simp [policyC3])
  have he := h.2.2.2.2.2 eventC3 (by simp [stateC3]) 0
    (by simp [stateC3, eventC3, lookupA]) (by simp [stateC3, eventC3])
    (by simp [eventC3]) (by simp [eventC3])
  exact ⟨hp, he⟩

/-- `engine.py::SimulationEngine.__init__` lines 40-41: the empty-country-list
guard, the first statement of the constructor (raises `ValueError` before any
other initialization work). -/
def simulationEngineCountryGuard (countries : List Country) : Except String (List Country) :=
  if countries.isEmpty then Except.error "Simulation requires at least one country"
  else Except.ok countries

/-- `factory.py::AgentFactory.agent_classes`: the registered agent classes,
keyed by country name (the class is modelled by its name). -/
def agent_classes : List (String × String) :=
  [("US", "USAgent"), ("China", "ChinaAgent"), ("Indonesia", "IndonesiaAgent")]

/-- `factory.py::AgentFactory.create_agent`: return the registered agent
class for the country, raising `ValueError` when none is registered. -/
def create_agent (country : Country) : Except String String :=
  match lookupS country.name agent_classes with
  | none => Except.error ("No agent class registered for country: " ++ country.name)
  | some agent_class => Except.ok agent_class

/-- C9: constructing a `SimulationEngine` with an empty country list raises,
and `AgentFactory.create_agent` raises for a country with no registered agent
class; both are raised during initialization, before any stepping. -/
theorem construction_fatal_errors :
    simulationEngineCountryGuard [] =
      Except.error "Simulation requires at least one country" ∧
    (∀ c : Country, lookupS c.name agent_classes = none →
      create_agent c = Except.error ("No agent class registered for country: " ++ c.name)) := by
  constructor
  · rfl
  · intro c hc
    rw [create_agent, hc]

/-- Concrete country with no registered agent class. -/
noncomputable def cBrazil : Country := ⟨"Brazil", 2, 0.08, 1⟩

theorem construction_fatal_errors_witness :
    create_agent cBrazil =
      Except.error ("No agent class registered for country: " ++ "Brazil") :=
  construction_fatal_errors.2 cBrazil rfl

/-- `models.py::EventConfig` dataclass field names, in declaration order
(lines 121-132): there is no `trigger_time` and no `one_time` field. -/
def eventConfigFields : List String :=
  ["name", "probability", "affected_countries", "affected_sectors",
   "gdp_impact", "duration_quarters", "description"]

/-- Keyword arguments passed to `EventConfig(...)` for the
"US Presidential Election" entry of
`events.py::EventGenerator._create_predefined_events` (lines 153-168). -/
def usElectionEventKwargs : List String :=
  ["name", "probability", "affected_countries", "affected_sectors",
   "gdp_impact", "duration_quarters", "description", "trigger_time", "one_time"]

/-- A Python dataclass `__init__` accepts a keyword-argument set iff every
keyword names a declared field; otherwise it raises `TypeError`. -/
def dataclassAccepts (fields kwargs : List String) : Bool :=
  kwargs.all (fun k => fields.contains k)

/-- `events.py::EventGenerator.__init__` runs `_create_predefined_events`,
whose "US Presidential Election" constructor call is the first to pass a
keyword that `EventConfig` does not declare; modelled up to that first
failing constructor call. -/
def eventGeneratorInit : Except String Unit :=
  if dataclassAccepts eventConfigFields usElectionEventKwargs then Except.ok ()
  else Except.error "TypeError: __init__() got an unexpected keyword argument"

/-- C7 (code bug): `EventConfig` declares neither `trigger_time` nor
`one_time`, yet `_create_predefined_events` passes both, so constructing an
`EventGenerator` raises `TypeError` — `generate_events` is unreachable and
the claimed trigger-step/one-time behaviour cannot be exercised. -/
theorem eventgenerator_init_typeerror :
    eventGeneratorInit =
      Except.error "TypeError: __init__() got an unexpected keyword argument" ∧
    "trigger_time" ∈ usElectionEventKwargs ∧ "trigger_time" ∉ eventConfigFields := by
  refine ⟨rfl, ?_, ?_⟩ <;> decide

/-- `gdp.py::_calculate_tariff_gdp_impact` line 116/132: the per-policy
average `sum(policy.sector_rates.values()) / len(policy.sector_rates)`,
which raises `ZeroDivisionError` for an empty sector-rate map (unlike the
analogous `state.py` computation, which guards with `max(1, ...)`). -/
noncomputable def policyAvgRateUnguarded (p : TariffPolicy) : Except String ℝ :=
  if p.sector_rates.length = 0 then Except.error "ZeroDivisionError"
  else Except.ok ((p.sector_rates.map Prod.snd).sum / (p.sector_rates.length : ℝ))

/-- `gdp.py::_calculate_tariff_gdp_impact`, called from
`calculate_gdp_impact`, itself called for every country by
`SimulationEngine.step` (via `_apply_economic_impacts`). -/
noncomputable def _calculate_tariff_gdp_impact
    (s : SimulationState) (country : Country) : Except String ℝ := do
  let outgoing_policies := s.active_tariff_policies.filter
    (fun p => p.source_country.name = country.name)
  let incoming_policies := s.active_tariff_policies.filter
    (fun p => p.target_country.name = country.name)
  let outgoing_tariff_impact ← outgoing_policies.foldlM (fun (acc : ℝ) p => do
    let avg_rate ← policyAvgRateUnguarded p
    pure (acc - avg_rate * 0.05)) (0 : ℝ)
  let incoming_tariff_impact ← incoming_policies.foldlM (fun (acc : ℝ) p => do
    let avg_rate ← policyAvgRateUnguarded p
    pure (acc - avg_rate * 0.15)) (0 : ℝ)
  pure (outgoing_tariff_impact + incoming_tariff_impact)

/-- Concrete US fixture. -/
noncomputable def usC4 : Country := ⟨"US", 25, 0.04, 1⟩

/-- An active tariff policy whose sector-rate map is empty. -/
noncomputable def emptyRatesPolicy : TariffPolicy := ⟨7, usC4, cB, [], 4⟩

/-- Concrete state holding the empty-rate policy as active. -/
noncomputable def stateC4 : SimulationState :=
  ⟨[usC4], 0, 0, [], [("US", [])], [emptyRatesPolicy], [], [(7, 0)], [], [("US", [])]⟩

/-- C4 (code bug): with an active tariff policy whose sector-rate map is
empty, the tariff-impact term of the GDP growth computation raises
`ZeroDivisionError`, so `SimulationEngine.step` propagates an exception
instead of resolving the situation with a safe default. -/
theorem step_zerodivision_on_empty_rates :
    _calculate_tariff_gdp_impact stateC4 usC4 = Except.error "ZeroDivisionError" := rfl

/-- `state.py::SimulationState.get_active_tariff_policies`. -/
noncomputable def SimulationState.get_active_tariff_policies
    (s : SimulationState) (source_country target_country : Country) : List TariffPolicy :=
  s.active_tariff_policies.filter (fun p =>
    p.source_country.name = source_country.name ∧
    p.target_country.name = target_country.name)

/-- `trade_balance.py::_get_sector_price_elasticity`: the elasticity table. -/
noncomputable def sector_price_elasticities : List (String × ℝ) :=
  [("agriculture", -0.8), ("manufacturing", -1.5), ("technology", -2.0),
   ("raw_materials", -0.6), ("services", -1.8), ("healthcare", -1.2),
   ("education", -1.0), ("tourism", -2.5), ("natural_resources", -0.7),
   ("rare_earth_minerals", -0.5)]

/-- `trade_balance.py::_get_sector_price_elasticity` (default -1.2). -/
noncomputable def _get_sector_price_elasticity (sector : String) : ℝ :=
  (lookupS sector sector_price_elasticities).getD (-1.2)

/-- `trade_balance.py::_get_country_sector_weights`. -/
noncomputable def _get_country_sector_weights (country : Country) : List (String × ℝ) :=
  if country.name = "US" then
    [("technology", 0.25), ("services", 0.20), ("manufacturing", 0.15),
     ("agriculture", 0.10), ("healthcare", 0.10), ("education", 0.05),
     ("raw_materials", 0.05), ("natural_resources", 0.05), ("tourism", 0.05)]
  else if country.name = "China" then
    [("manufacturing", 0.35), ("technology", 0.20), ("raw_materials", 0.10),
     ("rare_earth_minerals", 0.05), ("agriculture", 0.08), ("services", 0.07),
     ("healthcare", 0.05), ("natural_resources", 0.05), ("tourism", 0.05)]
  else if country.name = "Indonesia" then
    [("natural_resources", 0.25), ("agriculture", 0.20), ("manufacturing", 0.20),
     ("tourism", 0.15), ("raw_materials", 0.10), ("services", 0.05),
     ("technology", 0.05)]
  else
    [("manufacturing", 0.25), ("services", 0.20), ("agriculture", 0.15),
     ("natural_resources", 0.15), ("technology", 0.10), ("tourism", 0.10),
     ("healthcare", 0.05)]

/-- The random draws consumed by
`trade_balance.py::_create_baseline_trade_flow`:
`total` stands for `random.uniform(-0.1, 0.1)` on the total volume,
`weight s` for the per-sector `random.uniform(-0.2, 0.2)` and
`price s` for the per-sector `random.uniform(-0.1, 0.1)`. -/
structure BaselineJitter where
  total : ℝ
  weight : String → ℝ
  price : String → ℝ

/-- `trade_balance.py::_create_baseline_trade_flow`. -/
noncomputable def _create_baseline_trade_flow
    (exporter importer : Country) (year quarter : ℤ) (j : BaselineJitter) : TradeFlow :=
  let trade_scale := (exporter.gdp * importer.gdp) ^ (0.4 : ℝ) * 0.001
  let sector_weights := _get_country_sector_weights exporter
  let total_volume := trade_scale * (1.0 + j.total)
  { exporter := exporter
    importer := importer
    year := year
    quarter := quarter
    sector_volumes := sector_weights.map (fun sw =>
      (sw.1, total_volume * (sw.2 * (1.0 + j.weight sw.1))))
    sector_values := sector_weights.map (fun sw =>
      (sw.1, total_volume * (sw.2 * (1.0 + j.weight sw.1)) * (1.0 + j.price sw.1))) }

/-- `trade_balance.py::_get_previous_trade_flows`. -/
noncomputable def _get_previous_trade_flows
    (s : SimulationState) (country1 country2 : Country) (year quarter : ℤ)
    (j1 j2 : BaselineJitter) : TradeFlow × TradeFlow :=
  let prev := if quarter > 0 then (year, quarter - 1) else (year - 1, (3 : ℤ))
  let prev := if prev.1 < 0 then ((0 : ℤ), (0 : ℤ)) else prev
  let c1_to_c2_flows := s.trade_flows.filter (fun flow =>
    flow.exporter.name = country1.name ∧ flow.importer.name = country2.name ∧
    (flow.year < year ∨ (flow.year = year ∧ flow.quarter < quarter)))
  let c2_to_c1_flows := s.trade_flows.filter (fun flow =>
    flow.exporter.name = country2.name ∧ flow.importer.name = country1.name ∧
    (flow.year < year ∨ (flow.year = year ∧ flow.quarter < quarter)))
  let c1_to_c2_flow :=
    match c1_to_c2_flows with
    | [] => _create_baseline_trade_flow country1 country2 prev.1 prev.2 j1
    | head :: rest => latestFlow head rest
  let c2_to_c1_flow :=
    match c2_to_c1_flows with
    | [] => _create_baseline_trade_flow country2 country1 prev.1 prev.2 j2
    | head :: rest => latestFlow head rest
  (c1_to_c2_flow, c2_to_c1_flow)

/-- `trade_balance.py::_calculate_base_growth_rate` with the
`random.uniform(-0.005, 0.005)` draw passed as `jg`. -/
noncomputable def _calculate_base_growth_rate
    (exporter importer : Country) (s : SimulationState) (jg : ℝ) : ℝ :=
  let exporter_indicators := (lookupS exporter.name s.economic_indicators).getD []
  let importer_indicators := (lookupS importer.name s.economic_indicators).getD []
  let exporter_growth :=
    match exporter_indicators.getLast? with
    | some ind => ind.gdp_growth / 4
    | none => (0.01 : ℝ)
  let importer_growth :=
    match importer_indicators.getLast? with
    | some ind => ind.gdp_growth / 4
    | none => (0.01 : ℝ)
  let base_growth := (0.6 * exporter_growth + 0.4 * importer_growth) + jg
  max (-0.05) (min 0.07 base_growth)

/-- The tariff loop of `trade_balance.py::_calculate_updated_trade_flow`
(lines 209-226), threading the mutated volume/value dicts. -/
noncomputable def applyTariffsToFlow
    (tariff_policies : List TariffPolicy)
    (vols vals : List (String × ℝ)) :
    (List (String × ℝ)) × (List (String × ℝ)) :=
  tariff_policies.foldl (fun acc policy =>
    policy.sector_rates.foldl
      (fun (acc2 : (List (String × ℝ)) × (List (String × ℝ))) sr =>
        match lookupS sr.1 acc2.1 with
        | none => acc2
        | some vol =>
          let elasticity := _get_sector_price_elasticity sr.1
          let volume_change := vol * elasticity * sr.2
          let new_vol := max 0 (vol + volume_change)
          let new_price := 1 + sr.2 - sr.2 * 0.3
          (insertS sr.1 new_vol acc2.1, insertS sr.1 (new_vol * new_price) acc2.2))
      acc) (vols, vals)

/-- `trade_balance.py::_calculate_updated_trade_flow`. -/
noncomputable def _calculate_updated_trade_flow
    (s : SimulationState) (exporter importer : Country)
    (tariff_policies : List TariffPolicy) (previous_flow : TradeFlow)
    (year quarter : ℤ) (jg : ℝ) : TradeFlow :=
  let pair := applyTariffsToFlow tariff_policies
    previous_flow.sector_volumes previous_flow.sector_values
  let growth_rate := _calculate_base_growth_rate exporter importer s jg
  { exporter := exporter
    importer := importer
    year := year
    quarter := quarter
    sector_volumes := pair.1.map (fun kv => (kv.1, kv.2 * (1 + growth_rate)))
    sector_values := pair.2.map (fun kv => (kv.1, kv.2 * (1 + growth_rate))) }

/-- `trade_balance.py::update_trade_balance`: returns the balance from
`country1`'s perspective and the state with the two new flows appended. -/
noncomputable def update_trade_balance
    (s : SimulationState) (country1 country2 : Country)
    (yearArg quarterArg : Option ℤ)
    (j1 j2 : BaselineJitter) (jg1 jg2 : ℝ) : ℝ × SimulationState :=
  let year := yearArg.getD s.year
  let quarter := quarterArg.getD s.quarter
  let c1_to_c2_policies := s.get_active_tariff_policies country1 country2
  let c2_to_c1_policies := s.get_active_tariff_policies country2 country1
  let prev_flows := _get_previous_trade_flows s country1 country2 year quarter j1 j2
  let c1_to_c2_flow := _calculate_updated_trade_flow s country1 country2
    c2_to_c1_policies prev_flows.1 year quarter jg1
  let c2_to_c1_flow := _calculate_updated_trade_flow s country2 country1
    c1_to_c2_policies prev_flows.2 year quarter jg2
  let s' := { s with trade_flows := s.trade_flows ++ [c1_to_c2_flow, c2_to_c1_flow] }
  (c1_to_c2_flow.total_value - c2_to_c1_flow.total_value, s')

/-- Fixture: US as in the repo's diversion test (gdp 28.8). -/
noncomputable def usC8 : Country := ⟨"US", 28.8, 0.04, 1⟩

/-- Fixture: China as in the repo's diversion test (gdp 17.8). -/
noncomputable def chinaC8 : Country := ⟨"China", 17.8, 0.05, 1⟩

/-- Fixture: Indonesia as in the repo's diversion test (gdp 1.42). -/
noncomputable def idnC8 : Country := ⟨"Indonesia", 1.42, 0.06, 1⟩

/-- Fixture flow Indonesia → US, manufacturing volume 100 (the baseline the
diversion test expects to strictly increase). -/
noncomputable def flowIdnUs : TradeFlow :=
  ⟨idnC8, usC8, 0, 0, [("manufacturing", (100 : ℝ))], [("manufacturing", (100 : ℝ))]⟩

/-- Fixture flow US → Indonesia, manufacturing volume 30. -/
noncomputable def flowUsIdn : TradeFlow :=
  ⟨usC8, idnC8, 0, 0, [("manufacturing", (30 : ℝ))], [("manufacturing", (30 : ℝ))]⟩

/-- Fixture flow China → US, manufacturing volume 300. -/
noncomputable def flowChinaUs : TradeFlow :=
  ⟨chinaC8, usC8, 0, 0, [("manufacturing", (300 : ℝ))], [("manufacturing", (300 : ℝ))]⟩

/-- Fixture policy: US tariffs China at 0.35 on manufacturing. -/
noncomputable def polUsChina : TariffPolicy :=
  ⟨11, usC8, chinaC8, [("manufacturing", (0.35 : ℝ))], 4⟩

/-- Fixture policy: US tariffs Indonesia at 0.05 on manufacturing. -/
noncomputable def polUsIdn : TariffPolicy :=
  ⟨12, usC8, idnC8, [("manufacturing", (0.05 : ℝ))], 4⟩

/-- The diversion-test state: one flow per pair direction that exists, both
US tariff policies active, no indicators yet. -/
noncomputable def stateC8 : SimulationState :=
  ⟨[usC8, chinaC8, idnC8], 0, 1, [flowIdnUs, flowUsIdn, flowChinaUs],
   [("US", []), ("China", []), ("Indonesia", [])], [polUsChina, polUsIdn], [],
   [(11, 0), (12, 0)], [], [("US", []), ("China", []), ("Indonesia", [])]⟩

/-- C8 (code bug): with US tariffing China at 0.35 and Indonesia at 0.05 on
manufacturing, `update_trade_balance(state, Indonesia, US, 0, 1)` appends an
Indonesia → US flow whose manufacturing volume is
`92.5 * (1 + growth) ≤ 93.9 < 100` for every admissible growth draw — the
volume strictly decreases relative to the 100 baseline, for every random
draw, because `_calculate_updated_trade_flow` contains no diversion term. -/
theorem trade_diversion_fails
    (j1 j2 : BaselineJitter) (jg1 jg2 : ℝ)
    (h1 : -0.005 ≤ jg1) (h2 : jg1 ≤ 0.005) :
    ((update_trade_balance stateC8 idnC8 usC8 (some 0) (some 1) j1 j2 jg1 jg2).2.trade_flows =
      stateC8.trade_flows ++
        [_calculate_updated_trade_flow stateC8 idnC8 usC8
          (stateC8.get_active_tariff_policies usC8 idnC8)
          (_get_previous_trade_flows stateC8 idnC8 usC8 0 1 j1 j2).1 0 1 jg1,
         _calculate_updated_trade_flow stateC8 usC8 idnC8
          (stateC8.get_active_tariff_policies idnC8 usC8)
          (_get_previous_trade_flows stateC8 idnC8 usC8 0 1 j1 j2).2 0 1 jg2]) ∧
    (∃ v : ℝ,
      lookupS "manufacturing"
        (_calculate_updated_trade_flow stateC8 idnC8 usC8
          (stateC8.get_active_tariff_policies usC8 idnC8)
          (_get_previous_trade_flows stateC8 idnC8 usC8 0 1 j1 j2).1 0 1 jg1).sector_volumes =
        some v ∧ v < 100) := by
  constructor
  · rfl
  · have hpol : stateC8.get_active_tariff_policies usC8 idnC8 = [polUsIdn] := rfl
    have hprev : (_get_previous_trade_flows stateC8 idnC8 usC8 0 1 j1 j2).1 = flowIdnUs := rfl
    rw [hpol, hprev]
    have hlook :
        lookupS "manufacturing"
          (_calculate_updated_trade_flow stateC8 idnC8 usC8 [polUsIdn] flowIdnUs 0 1
            jg1).sector_volumes =
          some (max 0 ((100 : ℝ) + 100 * (-1.5) * 0.05) *
            (1 + max (-0.05) (min 0.07 (0.6 * 0.01 + 0.4 * 0.01 + jg1)))) := rfl
    refine ⟨_, hlook, ?_⟩
    have hg : max (-0.05) (min 0.07 (0.6 * 0.01 + 0.4 * 0.01 + jg1)) =
        0.6 * 0.01 + 0.4 * 0.01 + jg1 := by
      rw [min_eq_right (by nlinarith), max_eq_right (by nlinarith)]
    have hm : max (0 : ℝ) ((100 : ℝ) + 100 * (-1.5) * 0.05) = 92.5 := by
      rw [max_eq_right (by norm_num)]
      norm_num
    rw [hg, hm]
    nlinarith

/-- Zero draws for every modelled random call. -/
noncomputable def zeroJitter : BaselineJitter := ⟨0, fun _ => 0, fun _ => 0⟩

theorem trade_diversion_fails_witness :
    lookupS "manufacturing"
        (_calculate_updated_trade_flow stateC8 idnC8 usC8
          (stateC8.get_active_tariff_policies usC8 idnC8)
          (_get_previous_trade_flows stateC8 idnC8 usC8 0 1 zeroJitter zeroJitter).1
          0 1 0).sector_volumes =
      some (max 0 ((100 : ℝ) + 100 * (-1.5) * 0.05) *
        (1 + max (-0.05) (min 0.07 (0.6 * 0.01 + 0.4 * 0.01 + 0)))) ∧
    max 0 ((100 : ℝ) + 100 * (-1.5) * 0.05) *
        (1 + max (-0.05) (min 0.07 (0.6 * 0.01 + 0.4 * 0.01 + 0))) < 100 := by
  obtain ⟨v, hv, hlt⟩ :=
    (trade_diversion_fails zeroJitter zeroJitter 0 0 (by norm_num) (by norm_num)).2
  have hE : lookupS "manufacturing"
      (_calculate_updated_trade_flow stateC8 idnC8 usC8
        (stateC8.get_active_tariff_policies usC8 idnC8)
        (_get_previous_trade_flows stateC8 idnC8 usC8 0 1 zeroJitter zeroJitter).1
        0 1 0).sector_volumes =
      some (max 0 ((100 : ℝ) + 100 * (-1.5) * 0.05) *
        (1 + max (-0.05) (min 0.07 (0.6 * 0.01 + 0.4 * 0.01 + 0)))) := rfl
  have hveq : v = max 0 ((100 : ℝ) + 100 * (-1.5) * 0.05) *
      (1 + max (-0.05) (min 0.07 (0.6 * 0.01 + 0.4 * 0.01 + 0))) := by
    rw [hv] at hE
    exact Option.some.inj hE
  exact ⟨hE, hveq ▸ hlt⟩

/-- `numpy.std` (population standard deviation). -/
noncomputable def npStd (l : List ℝ) : ℝ :=
  let mean := l.sum / (l.length : ℝ)
  Real.sqrt ((l.map (fun x => (x - mean) ^ 2)).sum / (l.length : ℝ))

/-- `stability.py::StabilityAnalyzer` thresholds (constructor defaults:
tariff 0.25, volatility 0.03, deficit 0.1). -/
structure StabilityThresholds where
  tariff_threshold : ℝ
  volatility_threshold : ℝ
  deficit_threshold : ℝ

/-- The default `threshold_params` of `StabilityAnalyzer.__init__`. -/
noncomputable def defaultThresholds : StabilityThresholds := ⟨0.25, 0.03, 0.1⟩

/-- `stability.py::StabilityAnalyzer._analyze_tariff_levels`. -/
noncomputable def _analyze_tariff_levels (t : StabilityThresholds) (s : SimulationState) : ℝ :=
  if s.active_tariff_policies.isEmpty then 1.0
  else
    let all_rates := (s.active_tariff_policies.map (fun p => p.sector_rates.map Prod.snd)).flatten
    if all_rates.length = 0 then 1.0
    else max 0 (1 - (all_rates.sum / (all_rates.length : ℝ)) / t.tariff_threshold)

/-- `stability.py::StabilityAnalyzer._detect_tariff_retaliation`. Python's
`set` of `(source, target)` tuples and of `frozenset` country pairs are
modelled by `dedup`-ped lists of pairs and of two-element `Finset`s. -/
noncomputable def _detect_tariff_retaliation (s : SimulationState) : ℝ :=
  if s.active_tariff_policies.length < 2 then 1.0
  else
    let country_pairs := (s.active_tariff_policies.map
      (fun p => (p.source_country.name, p.target_country.name))).dedup
    let bilateral_pairs := ((s.active_tariff_policies.filter (fun p =>
        s.active_tariff_policies.any (fun p2 =>
          p2.source_country.name = p.target_country.name ∧
          p2.target_country.name = p.source_country.name))).map
      (fun p => ({p.source_country.name, p.target_country.name} : Finset String))).dedup
    if country_pairs.isEmpty then 1.0
    else
      let retaliation_ratio :=
        (bilateral_pairs.length : ℝ) / ((country_pairs.length : ℝ) / 2)
      max 0 (1 - retaliation_ratio)

/-- The ratio loop of `stability.py::StabilityAnalyzer._evaluate_trade_imbalances`
(lines 245-254): countries not found and empty balances are skipped
(`continue`), and `abs(total_balance / gdp)` at `gdp == 0` raises
`ZeroDivisionError` (line 253). -/
noncomputable def imbalanceRatios (s : SimulationState) :
    List (String × EconomicIndicator) → List ℝ → Except String (List ℝ)
  | [], acc => Except.ok acc
  | ni :: rest, acc =>
    match s.countries.find? (fun c => c.name = ni.1) with
    | none => imbalanceRatios s rest acc
    | some country =>
      if ni.2.trade_balance.isEmpty then imbalanceRatios s rest acc
      else if country.gdp = 0 then Except.error "ZeroDivisionError"
      else imbalanceRatios s rest
        (acc ++ [|((ni.2.trade_balance.map Prod.snd).sum) / country.gdp|])

/-- `stability.py::StabilityAnalyzer._evaluate_trade_imbalances`; propagates
the `ZeroDivisionError` of a zero-GDP country (line 253). -/
noncomputable def _evaluate_trade_imbalances
    (t : StabilityThresholds) (s : SimulationState) : Except String ℝ :=
  let latest_indicators := s.economic_indicators.filterMap
    (fun ni => ni.2.getLast?.map (fun ind => (ni.1, ind)))
  if latest_indicators.isEmpty then Except.ok 0.5
  else
    match imbalanceRatios s latest_indicators [] with
    | Except.error e => Except.error e
    | Except.ok imbalance_ratios =>
      if imbalance_ratios.isEmpty then Except.ok 0.5
      else Except.ok (max 0 (1 -
        (imbalance_ratios.sum / (imbalance_ratios.length : ℝ)) / t.deficit_threshold))

/-- `stability.py::StabilityAnalyzer._analyze_indicator_volatility`. -/
noncomputable def _analyze_indicator_volatility
    (t : StabilityThresholds) (s : SimulationState) : ℝ :=
  let volatility_scores := s.economic_indicators.filterMap (fun ni =>
    if ni.2.length < 3 then none
    else
      let gdp_growth_values := ni.2.map (fun ind => ind.gdp_growth)
      let gdp_volatility :=
        if 1 < gdp_growth_values.length then npStd gdp_growth_values else 0
      let inflation_values := ni.2.map (fun ind => ind.inflation)
      let inflation_volatility :=
        if 1 < inflation_values.length then npStd inflation_values else 0
      let combined_volatility := (gdp_volatility + inflation_volatility) / 2
      some (max 0 (1 - combined_volatility / t.volatility_threshold)))
  if volatility_scores.isEmpty then 0.5
  else volatility_scores.sum / (volatility_scores.length : ℝ)

/-- `stability.py::StabilityAnalyzer._assess_external_events`. -/
noncomputable def _assess_external_events (s : SimulationState) : ℝ :=
  if s.active_events.isEmpty then 1.0
  else
    let impacts := (s.active_events.map (fun e => e.gdp_impact.map (fun kv => |kv.2|))).flatten
    if impacts.length = 0 then 1.0
    else max 0 (1 - (impacts.sum / (impacts.length : ℝ)) / 0.02)

/-- `stability.py::StabilityAnalyzer.analyze_global_stability`: the returned
score (the weighted sum with weights 0.25/0.25/0.20/0.20/0.10), or the
`ZeroDivisionError` raised by the trade-imbalance factor for a zero-GDP
country. The trend label appended to the factor dict afterwards does not
feed into the score and is not modelled. -/
noncomputable def analyze_global_stability_score
    (t : StabilityThresholds) (s : SimulationState) : Except String ℝ :=
  match _evaluate_trade_imbalances t s with
  | Except.error e => Except.error e
  | Except.ok imbalance_score =>
    Except.ok (_analyze_tariff_levels t s * 0.25 +
      _detect_tariff_retaliation s * 0.25 +
      imbalance_score * 0.20 +
      _analyze_indicator_volatility t s * 0.20 +
      _assess_external_events s * 0.10)

/-- Country GDP-growth score (`stability.py` line 110). -/
noncomputable def countryGdpScore (latest_indicator : EconomicIndicator) : ℝ :=
  min 1 (max 0 (0.5 + latest_indicator.gdp_growth * 10))

/-- Country inflation score: deviation from the 2% ideal. -/
noncomputable def countryInflationScore (latest_indicator : EconomicIndicator) : ℝ :=
  max 0 (1 - |latest_indicator.inflation - 0.02| * 10)

/-- Country unemployment score. -/
noncomputable def countryUnemploymentScore (latest_indicator : EconomicIndicator) : ℝ :=
  max 0 (1 - latest_indicator.unemployment * 5)

/-- The per-policy averages summed by `stability.py` lines 130-133: each is
`sum(policy.sector_rates.values()) / len(policy.sector_rates)` (the same
unguarded formula as `policyAvgRateUnguarded`), so the first policy with an
empty rate map raises `ZeroDivisionError`. -/
noncomputable def incomingAvgRates : List TariffPolicy → Except String (List ℝ)
  | [] => Except.ok []
  | p :: rest =>
    match policyAvgRateUnguarded p with
    | Except.error e => Except.error e
    | Except.ok r =>
      match incomingAvgRates rest with
      | Except.error e => Except.error e
      | Except.ok rs => Except.ok (r :: rs)

/-- Country incoming-tariff score (lines 124-138); propagates the
`ZeroDivisionError` of an incoming policy with an empty sector-rate map
(line 131). -/
noncomputable def countryTariffImpactScore
    (s : SimulationState) (country : Country) : Except String ℝ :=
  let incoming_tariffs := s.active_tariff_policies.filter
    (fun p => p.target_country.name = country.name)
  if incoming_tariffs.length ≠ 0 then
    match incomingAvgRates incoming_tariffs with
    | Except.error e => Except.error e
    | Except.ok rates =>
      Except.ok (max 0 (1 - (rates.sum / (incoming_tariffs.length : ℝ)) * 2))
  else Except.ok 1.0

/-- Country trade-balance-to-GDP score (lines 140-151);
`total_trade_balance / country.gdp` at `gdp == 0` raises
`ZeroDivisionError` (line 145). -/
noncomputable def countryTradeBalanceScore
    (t : StabilityThresholds) (country : Country)
    (latest_indicator : EconomicIndicator) : Except String ℝ :=
  if ¬latest_indicator.trade_balance.isEmpty then
    if country.gdp = 0 then Except.error "ZeroDivisionError"
    else Except.ok (1 - min 1
      (|((latest_indicator.trade_balance.map Prod.snd).sum) / country.gdp| /
        t.deficit_threshold))
  else Except.ok 0.5

/-- Country confidence score. -/
noncomputable def countryConfidenceScore (latest_indicator : EconomicIndicator) : ℝ :=
  (latest_indicator.consumer_confidence + latest_indicator.business_confidence) / 200

/-- The renormalization weight sum: all six factors are always present, so
this is the full `0.25+0.15+0.15+0.20+0.15+0.10`. -/
noncomputable def countryWeightSum : ℝ := (0.25 : ℝ) + 0.15 + 0.15 + 0.20 + 0.15 + 0.10

/-- `stability.py::StabilityAnalyzer.analyze_country_stability`: the returned
score, or the first `ZeroDivisionError` raised by the incoming-tariff factor
(computed before) or the trade-balance factor. With no indicators the source
returns `(0.5, error-marker)`; all six factors are always present otherwise,
so the renormalized weight sum is the full `countryWeightSum`. -/
noncomputable def analyze_country_stability_score
    (t : StabilityThresholds) (s : SimulationState) (country : Country) :
    Except String ℝ :=
  let indicators := (lookupS country.name s.economic_indicators).getD []
  match indicators.getLast? with
  | none => Except.ok 0.5
  | some latest_indicator =>
    match countryTariffImpactScore s country with
    | Except.error e => Except.error e
    | Except.ok tariff_impact_score =>
      match countryTradeBalanceScore t country latest_indicator with
      | Except.error e => Except.error e
      | Except.ok trade_balance_score =>
        Except.ok (countryGdpScore latest_indicator * (0.25 / countryWeightSum) +
          countryInflationScore latest_indicator * (0.15 / countryWeightSum) +
          countryUnemploymentScore latest_indicator * (0.15 / countryWeightSum) +
          tariff_impact_score * (0.20 / countryWeightSum) +
          trade_balance_score * (0.15 / countryWeightSum) +
          countryConfidenceScore latest_indicator * (0.10 / countryWeightSum))

theorem clamp_score_mem (a thr : ℝ) (ha : 0 ≤ a) (hthr : 0 < thr) :
    0 ≤ max 0 (1 - a / thr) ∧ max 0 (1 - a / thr) ≤ 1 := by
  refine ⟨le_max_left _ _, max_le (by norm_num) ?_⟩
  have : 0 ≤ a / thr := div_nonneg ha hthr.le
  linarith

theorem list_mean_mem (l : List ℝ) (hne : ¬l.isEmpty)
    (h : ∀ x ∈ l, 0 ≤ x ∧ x ≤ 1) :
    0 ≤ l.sum / (l.length : ℝ) ∧ l.sum / (l.length : ℝ) ≤ 1 := by
  have hlen : 0 < l.length := by
    cases l with
    | nil => simp [List.isEmpty] at hne
    | cons a rest => simp
  have hlenR : (0 : ℝ) < (l.length : ℝ) := by exact_mod_cast hlen
  constructor
  · apply div_nonneg _ hlenR.le
    exact List.sum_nonneg (fun x hx => (h x hx).1)
  · rw [div_le_one hlenR]
    have := List.sum_le_card_nsmul l 1 (fun x hx => (h x hx).2)
    simpa using this

theorem npStd_nonneg (l : List ℝ) : 0 ≤ npStd l := Real.sqrt_nonneg _

theorem analyze_tariff_levels_mem (t : StabilityThresholds) (s : SimulationState)
    (htt : 0 < t.tariff_threshold)
    (hrates : ∀ p ∈ s.active_tariff_policies, ∀ kv ∈ p.sector_rates, (0 : ℝ) ≤ kv.2) :
    0 ≤ _analyze_tariff_levels t s ∧ _analyze_tariff_levels t s ≤ 1 := by
  unfold _analyze_tariff_levels
  dsimp only
  split
  · norm_num
  · split
    · norm_num
    · apply clamp_score_mem _ _ _ htt
      apply div_nonneg _ (Nat.cast_nonneg _)
      apply List.sum_nonneg
      intro x hx
      rcases List.mem_flatten.mp hx with ⟨inner, hinner, hxin⟩
      rcases List.mem_map.mp hinner with ⟨p, hp, rfl⟩
      rcases List.mem_map.mp hxin with ⟨kv, hkv, rfl⟩
      exact hrates p hp kv hkv

theorem one_sub_div_le_one {a b : ℝ} (ha : 0 ≤ a) (hb : 0 ≤ b) : 1 - a / b ≤ 1 := by
  have : 0 ≤ a / b := div_nonneg ha hb
  linarith

theorem detect_tariff_retaliation_mem (s : SimulationState) :
    0 ≤ _detect_tariff_retaliation s ∧ _detect_tariff_retaliation s ≤ 1 := by
  unfold _detect_tariff_retaliation
  dsimp only
  split
  · norm_num
  · split
    · norm_num
    · constructor
      · exact le_max_left _ _
      · apply max_le (by norm_num)
        apply one_sub_div_le_one
        · exact Nat.cast_nonneg _
        · positivity

theorem imbalanceRatios_ok (s : SimulationState)
    (hgdp : ∀ c' ∈ s.countries, c'.gdp ≠ 0) :
    ∀ (l : List (String × EconomicIndicator)) (acc : List ℝ),
      (∀ x ∈ acc, (0 : ℝ) ≤ x) →
      ∃ rs : List ℝ, imbalanceRatios s l acc = Except.ok rs ∧ ∀ x ∈ rs, 0 ≤ x := by
  intro l
  induction l with
  | nil => intro acc hacc; exact ⟨acc, rfl, hacc⟩
  | cons ni rest ih =>
    intro acc hacc
    rw [imbalanceRatios]
    rcases hfind : s.countries.find? (fun c => c.name = ni.1) with _ | country
    · rw [hfind]
      exact ih acc hacc
    · rw [hfind]
      dsimp only
      have hmem : country ∈ s.countries := List.mem_of_find?_eq_some hfind
      by_cases hbal : ni.2.trade_balance.isEmpty
      · rw [if_pos hbal]
        exact ih acc hacc
      · rw [if_neg hbal, if_neg (hgdp country hmem)]
        apply ih
        intro x hx
        rcases List.mem_append.mp hx with h1 | h1
        · exact hacc x h1
        · have := List.mem_singleton.mp h1
          rw [this]
          exact abs_nonneg _

theorem evaluate_trade_imbalances_mem (t : StabilityThresholds) (s : SimulationState)
    (hdt : 0 < t.deficit_threshold)
    (hgdp : ∀ c' ∈ s.countries, c'.gdp ≠ 0) :
    ∃ v : ℝ, _evaluate_trade_imbalances t s = Except.ok v ∧ 0 ≤ v ∧ v ≤ 1 := by
  unfold _evaluate_trade_imbalances
  dsimp only
  by_cases hemp : (s.economic_indicators.filterMap
      (fun ni => ni.2.getLast?.map (fun ind => (ni.1, ind)))).isEmpty
  · rw [if_pos hemp]
    exact ⟨0.5, rfl, by norm_num, by norm_num⟩
  · rw [if_neg hemp]
    obtain ⟨rs, hrs, hpos⟩ := imbalanceRatios_ok s hgdp
      (s.economic_indicators.filterMap
        (fun ni => ni.2.getLast?.map (fun ind => (ni.1, ind)))) []
      (by intro x hx; cases hx)
    rw [hrs]
    dsimp only
    by_cases hrse : rs.isEmpty
    · rw [if_pos hrse]
      exact ⟨0.5, rfl, by norm_num, by norm_num⟩
    · rw [if_neg hrse]
      refine ⟨_, rfl, ?_⟩
      apply clamp_score_mem _ _ _ hdt
      exact div_nonneg (List.sum_nonneg hpos) (Nat.cast_nonneg _)

theorem analyze_indicator_volatility_mem (t : StabilityThresholds) (s : SimulationState)
    (hvt : 0 < t.volatility_threshold) :
    0 ≤ _analyze_indicator_volatility t s ∧ _analyze_indicator_volatility t s ≤ 1 := by
  unfold _analyze_indicator_volatility
  dsimp only
  split
  · norm_num
  · apply list_mean_mem _ (by assumption)
    intro x hx
    rcases List.mem_filterMap.mp hx with ⟨ni, hni, hmap⟩
    by_cases hlen : ni.2.length < 3
    · rw [if_pos hlen] at hmap; cases hmap
    · rw [if_neg hlen] at hmap
      cases hmap
      apply clamp_score_mem _ _ _ hvt
      have h1 : (0 : ℝ) ≤ (if 1 < (ni.2.map (fun ind => ind.gdp_growth)).length then
          npStd (ni.2.map (fun ind => ind.gdp_growth)) else 0) := by
        split
        · exact npStd_nonneg _
        · exact le_refl 0
      have h2 : (0 : ℝ) ≤ (if 1 < (ni.2.map (fun ind => ind.inflation)).length then
          npStd (ni.2.map (fun ind => ind.inflation)) else 0) := by
        split
        · exact npStd_nonneg _
        · exact le_refl 0
      linarith

theorem assess_external_events_mem (s : SimulationState) :
    0 ≤ _assess_external_events s ∧ _assess_external_events s ≤ 1 := by
  unfold _assess_external_events
  dsimp only
  split
  · norm_num
  · split
    · norm_num
    · apply clamp_score_mem _ _ _ (by norm_num : (0 : ℝ) < 0.02)
      apply div_nonneg _ (Nat.cast_nonneg _)
      apply List.sum_nonneg
      intro x hx
      rcases List.mem_flatten.mp hx with ⟨inner, hinner, hxin⟩
      rcases List.mem_map.mp hinner with ⟨e, he, rfl⟩
      rcases List.mem_map.mp hxin with ⟨kv, hkv, rfl⟩
      exact abs_nonneg _

theorem countryGdpScore_mem (latest : EconomicIndicator) :
    0 ≤ countryGdpScore latest ∧ countryGdpScore latest ≤ 1 := by
  unfold countryGdpScore
  constructor
  · exact le_min (by norm_num) (le_max_left _ _)
  · exact min_le_left _ _

theorem countryInflationScore_mem (latest : EconomicIndicator) :
    0 ≤ countryInflationScore latest ∧ countryInflationScore latest ≤ 1 := by
  unfold countryInflationScore
  refine ⟨le_max_left _ _, max_le (by norm_num) ?_⟩
  have := abs_nonneg (latest.inflation - 0.02)
  nlinarith

theorem countryUnemploymentScore_mem (latest : EconomicIndicator)
    (hu : 0 ≤ latest.unemployment) :
    0 ≤ countryUnemploymentScore latest ∧ countryUnemploymentScore latest ≤ 1 := by
  unfold countryUnemploymentScore
  refine ⟨le_max_left _ _, max_le (by norm_num) ?_⟩
  nlinarith

theorem incomingAvgRates_ok (l : List TariffPolicy)
    (hne : ∀ p ∈ l, p.sector_rates.length ≠ 0)
    (hrates : ∀ p ∈ l, ∀ kv ∈ p.sector_rates, (0 : ℝ) ≤ kv.2) :
    ∃ rs : List ℝ, incomingAvgRates l = Except.ok rs ∧ ∀ x ∈ rs, 0 ≤ x := by
  induction l with
  | nil => exact ⟨[], rfl, by intro x hx; cases hx⟩
  | cons p rest ih =>
    obtain ⟨rs, hrs, hpos⟩ := ih
      (fun q hq => hne q (List.mem_cons.mpr (Or.inr hq)))
      (fun q hq => hrates q (List.mem_cons.mpr (Or.inr hq)))
    have hp : policyAvgRateUnguarded p =
        Except.ok ((p.sector_rates.map Prod.snd).sum / (p.sector_rates.length : ℝ)) := by
      unfold policyAvgRateUnguarded
      rw [if_neg (hne p (List.mem_cons_self p rest))]
    rw [incomingAvgRates, hp, hrs]
    refine ⟨(p.sector_rates.map Prod.snd).sum / (p.sector_rates.length : ℝ) :: rs,
      rfl, ?_⟩
    intro x hx
    rcases List.mem_cons.mp hx with h1 | h1
    · rw [h1]
      apply div_nonneg _ (Nat.cast_nonneg _)
      apply List.sum_nonneg
      intro r hr
      rcases List.mem_map.mp hr with ⟨kv, hkv, rfl⟩
      exact hrates p (List.mem_cons_self p rest) kv hkv
    · exact hpos x h1

theorem countryTariffImpactScore_mem (s : SimulationState) (c : Country)
    (hrates : ∀ p ∈ s.active_tariff_policies, ∀ kv ∈ p.sector_rates, (0 : ℝ) ≤ kv.2)
    (hne : ∀ p ∈ s.active_tariff_policies, p.sector_rates.length ≠ 0) :
    ∃ v : ℝ, countryTariffImpactScore s c = Except.ok v ∧ 0 ≤ v ∧ v ≤ 1 := by
  unfold countryTariffImpactScore
  dsimp only
  by_cases hlen : (s.active_tariff_policies.filter
      (fun p => p.target_country.name = c.name)).length ≠ 0
  · rw [if_pos hlen]
    obtain ⟨rs, hrs, hpos⟩ := incomingAvgRates_ok
      (s.active_tariff_policies.filter (fun p => p.target_country.name = c.name))
      (fun p hp => hne p (List.mem_of_mem_filter hp))
      (fun p hp => hrates p (List.mem_of_mem_filter hp))
    rw [hrs]
    refine ⟨_, rfl, le_max_left _ _, max_le (by norm_num) ?_⟩
    have havg : (0 : ℝ) ≤ rs.sum / ((s.active_tariff_policies.filter
        (fun p => p.target_country.name = c.name)).length : ℝ) :=
      div_nonneg (List.sum_nonneg hpos) (Nat.cast_nonneg _)
    nlinarith
  · rw [if_neg hlen]
    exact ⟨1.0, rfl, by norm_num, by norm_num⟩

theorem countryTradeBalanceScore_mem (t : StabilityThresholds) (c : Country)
    (latest : EconomicIndicator) (hdt : 0 < t.deficit_threshold) (hcg : c.gdp ≠ 0) :
    ∃ v : ℝ, countryTradeBalanceScore t c latest = Except.ok v ∧ 0 ≤ v ∧ v ≤ 1 := by
  unfold countryTradeBalanceScore
  by_cases hbal : ¬latest.trade_balance.isEmpty
  · rw [if_pos hbal, if_neg hcg]
    refine ⟨_, rfl, ?_, ?_⟩
    · have h1 : min 1 (|((latest.trade_balance.map Prod.snd).sum) / c.gdp| /
          t.deficit_threshold) ≤ (1 : ℝ) := min_le_left _ _
      linarith
    · have h1 : (0 : ℝ) ≤ min 1 (|((latest.trade_balance.map Prod.snd).sum) / c.gdp| /
          t.deficit_threshold) :=
        le_min (by norm_num) (div_nonneg (abs_nonneg _) hdt.le)
      linarith
  · rw [if_neg hbal]
    exact ⟨0.5, rfl, by norm_num, by norm_num⟩

theorem countryConfidenceScore_mem (latest : EconomicIndicator)
    (hc0 : 0 ≤ latest.consumer_confidence + latest.business_confidence)
    (hc1 : latest.consumer_confidence + latest.business_confidence ≤ 200) :
    0 ≤ countryConfidenceScore latest ∧ countryConfidenceScore latest ≤ 1 := by
  unfold countryConfidenceScore
  constructor
  · exact div_nonneg hc0 (by norm_num)
  · rw [div_le_one (by norm_num)]
    linarith

/-- C6 (amended): `analyze_global_stability` returns a score in [0, 1] for
every state whose active sector rates are all non-negative and whose
countries all have non-zero GDP (a zero GDP raises `ZeroDivisionError` at
stability.py line 253 instead of returning a score); and
`analyze_country_stability` returns a score in [0, 1] for every non-zero-GDP
country (line 145) whose active incoming policies have non-empty rate maps
(line 131) and whose latest recorded indicator has non-negative unemployment
and consumer plus business confidence in [0, 200]. The two 130-clamped
confidences can sum to 260, which drives the country score above 1, so the
claimed unconditional [0, 1] range is false (see the counterexample). -/
theorem stability_scores_unit_interval
    (t : StabilityThresholds) (s : SimulationState) (c : Country)
    (htt : 0 < t.tariff_threshold) (hvt : 0 < t.volatility_threshold)
    (hdt : 0 < t.deficit_threshold)
    (hrates : ∀ p ∈ s.active_tariff_policies, ∀ kv ∈ p.sector_rates, (0 : ℝ) ≤ kv.2)
    (hgdp : ∀ c' ∈ s.countries, c'.gdp ≠ 0)
    (hne : ∀ p ∈ s.active_tariff_policies, p.sector_rates.length ≠ 0)
    (hcg : c.gdp ≠ 0) :
    (∃ v : ℝ, analyze_global_stability_score t s = Except.ok v ∧ 0 ≤ v ∧ v ≤ 1) ∧
    (∀ latest : EconomicIndicator,
      ((lookupS c.name s.economic_indicators).getD []).getLast? = some latest →
      0 ≤ latest.unemployment →
      0 ≤ latest.consumer_confidence + latest.business_confidence →
      latest.consumer_confidence + latest.business_confidence ≤ 200 →
      ∃ v : ℝ, analyze_country_stability_score t s c = Except.ok v ∧
        0 ≤ v ∧ v ≤ 1) := by
  constructor
  · obtain ⟨a0, a1⟩ := analyze_tariff_levels_mem t s htt hrates
    obtain ⟨b0, b1⟩ := detect_tariff_retaliation_mem s
    obtain ⟨vi, hvi, c0, c1⟩ := evaluate_trade_imbalances_mem t s hdt hgdp
    obtain ⟨d0, d1⟩ := analyze_indicator_volatility_mem t s hvt
    obtain ⟨e0, e1⟩ := assess_external_events_mem s
    refine ⟨_analyze_tariff_levels t s * 0.25 + _detect_tariff_retaliation s * 0.25 +
      vi * 0.20 + _analyze_indicator_volatility t s * 0.20 +
      _assess_external_events s * 0.10, ?_, ?_, ?_⟩
    · unfold analyze_global_stability_score
      rw [hvi]
    · nlinarith
    · nlinarith
  · intro latest hlast hu hc0 hc1
    obtain ⟨g0, g1⟩ := countryGdpScore_mem latest
    obtain ⟨i0, i1⟩ := countryInflationScore_mem latest
    obtain ⟨u0, u1⟩ := countryUnemploymentScore_mem latest hu
    obtain ⟨vt, hvt2, ta0, ta1⟩ := countryTariffImpactScore_mem s c hrates hne
    obtain ⟨vb, hvb2, tb0, tb1⟩ := countryTradeBalanceScore_mem t c latest hdt hcg
    obtain ⟨cf0, cf1⟩ := countryConfidenceScore_mem latest hc0 hc1
    have hws : countryWeightSum = 1 := by unfold countryWeightSum; norm_num
    refine ⟨countryGdpScore latest * (0.25 / countryWeightSum) +
      countryInflationScore latest * (0.15 / countryWeightSum) +
      countryUnemploymentScore latest * (0.15 / countryWeightSum) +
      vt * (0.20 / countryWeightSum) +
      vb * (0.15 / countryWeightSum) +
      countryConfidenceScore latest * (0.10 / countryWeightSum), ?_, ?_, ?_⟩
    · unfold analyze_country_stability_score
      dsimp only
      rw [hlast]
      dsimp only
      rw [hvt2]
      dsimp only
      rw [hvb2]
    · rw [hws]
      nlinarith
    · rw [hws]
      nlinarith

/-- Fixture country for the stability counterexample (gdp 1). -/
noncomputable def cC6 : Country := ⟨"C", 1, 0.02, 1⟩

/-- A latest indicator as `finalize_update` can produce it: growth 5%,
inflation at the 2% ideal, unemployment at its 0.02 lower clamp, balanced
trade, and both confidences at their 130 upper clamp. -/
noncomputable def indC6 : EconomicIndicator :=
  ⟨"C", 0, 0, 0.05, 0.02, 0.02, [("B", 0)], 130, 130, 1⟩

/-- State for the stability counterexample. -/
noncomputable def stateC6 : SimulationState :=
  ⟨[cC6], 0, 0, [], [("C", [indC6])], [], [], [], [], [("C", [])]⟩

/-- A tariff-decrease policy with a negative sector rate. -/
noncomputable def pNeg : TariffPolicy := ⟨21, cA, cB, [("technology", -1)], 4⟩

/-- State holding only the negative-rate policy. -/
noncomputable def stateC6g : SimulationState :=
  ⟨[cA], 0, 0, [], [("A", [])], [pNeg], [], [(21, 0)], [], [("A", [])]⟩

/-- C6 counterexample: with both confidences at their 130 clamp the country
stability score evaluates to 1.015 > 1; and with one active policy at the
(legal) negative rate -1 the global score evaluates to 1.8 > 1. Both refute
the claimed unconditional [0, 1] ranges. -/
theorem country_stability_score_gt_one :
    analyze_country_stability_score defaultThresholds stateC6 cC6 =
      Except.ok (1.015 : ℝ) ∧
    analyze_global_stability_score defaultThresholds stateC6g =
      Except.ok (1.8 : ℝ) ∧
    (1 : ℝ) < 1.015 ∧ (1 : ℝ) < 1.8 := by
  refine ⟨?_, ?_, by norm_num, by norm_num⟩
  · have hg : countryGdpScore indC6 = 1 := by
      unfold countryGdpScore indC6
      norm_num [max_def, min_def]
    have hi : countryInflationScore indC6 = 1 := by
      unfold countryInflationScore indC6
      norm_num [max_def]
    have hu : countryUnemploymentScore indC6 = 0.9 := by
      unfold countryUnemploymentScore indC6
      norm_num [max_def]
    have hta : countryTariffImpactScore stateC6 cC6 = Except.ok 1.0 := rfl
    have htb0 : countryTradeBalanceScore defaultThresholds cC6 indC6 =
        Except.ok (1 - min 1 (|((indC6.trade_balance.map Prod.snd).sum) / cC6.gdp| /
          defaultThresholds.deficit_threshold)) := by
      unfold countryTradeBalanceScore
      rw [if_pos (by simp [indC6]), if_neg (by norm_num [cC6])]
    have hval : (1 - min 1 (|((indC6.trade_balance.map Prod.snd).sum) / cC6.gdp| /
        defaultThresholds.deficit_threshold) : ℝ) = 1 := by
      norm_num [indC6, cC6, defaultThresholds, min_def]
    have htb : countryTradeBalanceScore defaultThresholds cC6 indC6 = Except.ok 1 := by
      rw [htb0, hval]
    have hcf : countryConfidenceScore indC6 = 1.3 := by
      unfold countryConfidenceScore indC6
      norm_num
    have hws : countryWeightSum = 1 := by unfold countryWeightSum; norm_num
    have hlast : ((lookupS cC6.name stateC6.economic_indicators).getD []).getLast? =
        some indC6 := rfl
    unfold analyze_country_stability_score
    dsimp only
    rw [hlast]
    dsimp only
    rw [hta]
    dsimp only
    rw [htb]
    dsimp only
    rw [hg, hi, hu, hcf, hws]
    simp only [Except.ok.injEq]
    norm_num
  · have h1 : _analyze_tariff_levels defaultThresholds stateC6g = 5 := by
      unfold _analyze_tariff_levels stateC6g pNeg defaultThresholds
      norm_num [max_def]
    have h2 : _detect_tariff_retaliation stateC6g = 1.0 := rfl
    have h3 : _evaluate_trade_imbalances defaultThresholds stateC6g =
        Except.ok 0.5 := rfl
    have h4 : _analyze_indicator_volatility defaultThresholds stateC6g = 0.5 := rfl
    have h5 : _assess_external_events stateC6g = 1.0 := rfl
    unfold analyze_global_stability_score
    rw [h3]
    dsimp only
    rw [h1, h2, h4, h5]
    simp only [Except.ok.injEq]
    norm_num

/-- A latest indicator whose confidences sum within 200. -/
noncomputable def indOk : EconomicIndicator :=
  ⟨"A", 0, 0, 0.02, 0.02, 0.05, [], 100, 100, 1⟩

/-- Well-behaved witness state. -/
noncomputable def stateOk : SimulationState :=
  ⟨[cA], 0, 0, [], [("A", [indOk])], [], [], [], [], [("A", [])]⟩

theorem stability_scores_unit_interval_witness :
    (analyze_global_stability_score defaultThresholds stateOk =
        Except.ok ((1.0 : ℝ) * 0.25 + 1.0 * 0.25 + 0.5 * 0.20 + 0.5 * 0.20 +
          1.0 * 0.10) ∧
      0 ≤ (1.0 : ℝ) * 0.25 + 1.0 * 0.25 + 0.5 * 0.20 + 0.5 * 0.20 + 1.0 * 0.10 ∧
      (1.0 : ℝ) * 0.25 + 1.0 * 0.25 + 0.5 * 0.20 + 0.5 * 0.20 + 1.0 * 0.10 ≤ 1) ∧
    (analyze_country_stability_score defaultThresholds stateOk cA =
        Except.ok (min 1 (max 0 ((0.5 : ℝ) + 0.02 * 10)) * (0.25 / countryWeightSum) +
          max 0 (1 - |(0.02 : ℝ) - 0.02| * 10) * (0.15 / countryWeightSum) +
          max 0 (1 - (0.05 : ℝ) * 5) * (0.15 / countryWeightSum) +
          1.0 * (0.20 / countryWeightSum) +
          0.5 * (0.15 / countryWeightSum) +
          ((100 : ℝ) + 100) / 200 * (0.10 / countryWeightSum)) ∧
      0 ≤ min 1 (max 0 ((0.5 : ℝ) + 0.02 * 10)) * (0.25 / countryWeightSum) +
          max 0 (1 - |(0.02 : ℝ) - 0.02| * 10) * (0.15 / countryWeightSum) +
          max 0 (1 - (0.05 : ℝ) * 5) * (0.15 / countryWeightSum) +
          1.0 * (0.20 / countryWeightSum) +
          0.5 * (0.15 / countryWeightSum) +
          ((100 : ℝ) + 100) / 200 * (0.10 / countryWeightSum) ∧
      min 1 (max 0 ((0.5 : ℝ) + 0.02 * 10)) * (0.25 / countryWeightSum) +
          max 0 (1 - |(0.02 : ℝ) - 0.02| * 10) * (0.15 / countryWeightSum) +
          max 0 (1 - (0.05 : ℝ) * 5) * (0.15 / countryWeightSum) +
          1.0 * (0.20 / countryWeightSum) +
          0.5 * (0.15 / countryWeightSum) +
          ((100 : ℝ) + 100) / 200 * (0.10 / countryWeightSum) ≤ 1) := by
  have h := stability_scores_unit_interval defaultThresholds stateOk cA
    (by norm_num [defaultThresholds]) (by norm_num [defaultThresholds])
    (by norm_num [defaultThresholds])
    (by intro p hp; simp [stateOk] at hp)
    (by
      intro c' hc'
      simp [stateOk] at hc'
      rw [hc']
      norm_num [cA])
    (by intro p hp; simp [stateOk] at hp)
    (by norm_num [cA])
  obtain ⟨vg, hvg, hg0, hg1⟩ := h.1
  obtain ⟨vc, hvc, hcb0, hcb1⟩ := h.2 indOk rfl (by norm_num [indOk])
    (by norm_num [indOk]) (by norm_num [indOk])
  have hEG : analyze_global_stability_score defaultThresholds stateOk =
      Except.ok ((1.0 : ℝ) * 0.25 + 1.0 * 0.25 + 0.5 * 0.20 + 0.5 * 0.20 +
        1.0 * 0.10) := rfl
  have hEC : analyze_country_stability_score defaultThresholds stateOk cA =
      Except.ok (min 1 (max 0 ((0.5 : ℝ) + 0.02 * 10)) * (0.25 / countryWeightSum) +
        max 0 (1 - |(0.02 : ℝ) - 0.02| * 10) * (0.15 / countryWeightSum) +
        max 0 (1 - (0.05 : ℝ) * 5) * (0.15 / countryWeightSum) +
        1.0 * (0.20 / countryWeightSum) +
        0.5 * (0.15 / countryWeightSum) +
        ((100 : ℝ) + 100) / 200 * (0.10 / countryWeightSum)) := rfl
  have hvgeq : vg = (1.0 : ℝ) * 0.25 + 1.0 * 0.25 + 0.5 * 0.20 + 0.5 * 0.20 +
      1.0 * 0.10 := by
    rw [hvg] at hEG
    exact Except.ok.inj hEG
  have hvceq : vc = min 1 (max 0 ((0.5 : ℝ) + 0.02 * 10)) * (0.25 / countryWeightSum) +
      max 0 (1 - |(0.02 : ℝ) - 0.02| * 10) * (0.15 / countryWeightSum) +
      max 0 (1 - (0.05 : ℝ) * 5) * (0.15 / countryWeightSum) +
      1.0 * (0.20 / countryWeightSum) +
      0.5 * (0.15 / countryWeightSum) +
      ((100 : ℝ) + 100) / 200 * (0.10 / countryWeightSum) := by
    rw [hvc] at hEC
    exact Except.ok.inj hEC
  exact ⟨⟨hEG, hvgeq ▸ hg0, hvgeq ▸ hg1⟩, ⟨hEC, hvceq ▸ hcb0, hvceq ▸ hcb1⟩⟩

end TradewarSim

